import Mathlib

/-!
Verification of the Chartura demo web application.

The TypeScript sources are shallowly embedded in Lean: JS numbers are modelled
as exact rationals (`ℚ`), JS strings as `String`, missing or undefined JSON
fields as `Option`, and code that can throw as `Option`-returning functions
(`none` models a thrown exception).  Named definitions follow the layout of the
source files:

* `Kpi`      — src/unnamed/part_004 (the `PremiumKpiCards` component)
* `Premium`  — src/unnamed/part_003 (the `PremiumLineChart` component)
* `Donut`    — src/src/components/premium/DonutChart.tsx
* `PagesApi` — src/pages/api/askura.ts
* `ApiAskura`— src/api/askura.ts
* `Api5`     — src/unnamed/part_005 (a pages/api/askura.ts variant)
* `Home`     — src/src/HomePage.tsx (the Rev 17 page: chart math, CSV import,
               the Askura client helper and the local answerer)
-/

/- ### JS numeric helpers over exact rationals -/

/-- JS `Math.round x`: the integer `⌊x + 1/2⌋` (nearest, ties toward positive infinity). -/
def jsRound (q : ℚ) : ℤ := ⌊q + 1/2⌋

/-- JS `x || d` on numbers, over `ℚ`: `0` is the only falsy rational
(`NaN` and the infinities have no rational counterpart). -/
def jsOrQ (x d : ℚ) : ℚ := if x = 0 then d else x

/-- JS `n.toFixed(2)` for a rational: per the ECMAScript algorithm the sign is
split off first, then the closest integer `n` to `100·|x|` is chosen, ties
resolved to the larger `n`; the digits of `n` are printed with two decimals. -/
def jsToFixed2 (q : ℚ) : String :=
  let format : ℤ → String := fun n =>
    let ip := n / 100
    let fr := (n % 100).toNat
    let frs := if fr < 10 then "0" ++ toString fr else toString fr
    toString ip ++ "." ++ frs
  if q < 0 then "-" ++ format ⌊(-q) * 100 + 1/2⌋ else format ⌊q * 100 + 1/2⌋

/-- JS number-to-string conversion, for the rationals that actually occur here:
integers print as integers, terminating decimal fractions print with their
(shortest) decimal expansion.  Rationals whose denominator is divisible by a
prime other than 2 or 5 have no finite decimal form (nor an exact `double`
representation); for them we fall back to a `num/den` rendering. -/
def qToString (q : ℚ) : String :=
  if q.den = 1 then toString q.num
  else
    match (List.range 21).find? (fun k => (q * (10 : ℚ) ^ k).den = 1) with
    | some k =>
        let n := (q.num.natAbs * 10 ^ k) / q.den
        let ip := n / 10 ^ k
        let fr := n % 10 ^ k
        let frDigits := toString fr
        let pad := String.mk (List.replicate (k - frDigits.length) '0')
        let trimZeros := fun (s : String) => String.mk (s.data.reverse.dropWhile (· = '0')).reverse
        (if q < 0 then "-" else "") ++ toString ip ++ "." ++ trimZeros (pad ++ frDigits)
    | none => toString q.num ++ "/" ++ toString q.den

/- ### `Kpi` — src/unnamed/part_004, component `PremiumKpiCards` -/

namespace Kpi

/-- Row type of part_004: `{ period: string; revenue: number; units: number }`.
`revenue` and `units` are `Option`s because every read in the component is
guarded with `|| 0` or `?? -Infinity` against fields missing from imported
data. -/
structure Row where
  period : String
  revenue : Option ℚ
  units : Option ℚ
deriving DecidableEq

/-- Function `pct` of part_004:
`if (!Number.isFinite(a) || a === 0) return 0; return ((b - a) / a) * 100;`.
Every rational is finite, so the guard reduces to `a = 0`. -/
def pct (a b : ℚ) : ℚ := if a = 0 then 0 else ((b - a) / a) * 100

/-- `totalRev`: `rows.reduce((s, r) => s + (r.revenue || 0), 0)`.  On rationals
`v || 0` is `v` for a present value (`0` maps to itself) and `0` when missing. -/
def totalRev (rows : List Row) : ℚ := rows.foldl (fun s r => s + r.revenue.getD 0) 0

/-- The best-year scan reads revenue as `r.revenue ?? -Infinity`; a missing
field is the bottom element of `WithBot ℚ`. -/
def toBot (x : Option ℚ) : WithBot ℚ :=
  match x with
  | none => ⊥
  | some v => (v : WithBot ℚ)

/-- Best-year scan of part_004 (lines 11-15):
`let bestYear = rows[0]?.period ?? ''; let bestVal = rows[0]?.revenue ?? -Infinity;`
`for (const r of rows) { if ((r.revenue ?? -Infinity) > bestVal) { bestVal = r.revenue; bestYear = r.period; } }`.
The assignment `bestVal = r.revenue` only fires under the guard, which forces
`r.revenue` to be present, so assigning `toBot r.revenue` is the same value. -/
def bestPair (rows : List Row) : String × WithBot ℚ :=
  rows.foldl
    (fun b r => if b.2 < toBot r.revenue then (r.period, toBot r.revenue) else b)
    (match rows with
     | [] => ("", ⊥)
     | r :: _ => (r.period, toBot r.revenue))

/-- The `Best Year` card value. -/
def bestYear (rows : List Row) : String := (bestPair rows).1

/-- `growthPct = pct(first?.revenue ?? 0, last?.revenue ?? 0)` where
`first = rows[0]` and `last = rows[rows.length - 1]`. -/
def growthPct (rows : List Row) : ℚ :=
  pct ((rows.head?.bind Row.revenue).getD 0) ((rows.getLast?.bind Row.revenue).getD 0)

end Kpi

/- ### `Premium` — src/unnamed/part_003, component `PremiumLineChart` -/

namespace Premium

/-- The divisor of `scaleLinear` (part_003 line 15): `const d = domainMax - domainMin || 1`. -/
def scaleDenom (domainMin domainMax : ℚ) : ℚ := jsOrQ (domainMax - domainMin) 1

/-- `scaleLinear` (part_003 lines 14-18): returns
`rangeMin + ((v - domainMin) / d) * (rangeMax - rangeMin)`. -/
def scaleLinear (domainMin domainMax rangeMin rangeMax v : ℚ) : ℚ :=
  rangeMin + ((v - domainMin) / scaleDenom domainMin domainMax) * (rangeMax - rangeMin)

end Premium

/- ### `Donut` — src/src/components/premium/DonutChart.tsx -/

namespace Donut

/-- `type Slice = { label: string; value: number }`. -/
structure Slice where
  label : String
  value : ℚ
deriving DecidableEq

/-- DonutChart.tsx line 16:
`const total = Math.max(1, data.reduce((s, d) => s + (d.value || 0), 0))`. -/
def total (data : List Slice) : ℚ := max 1 (data.foldl (fun s d => s + jsOrQ d.value 0) 0)

/-- The raw series total, before the `Math.max(1, ·)` clamp. -/
def seriesSum (data : List Slice) : ℚ := data.foldl (fun s d => s + jsOrQ d.value 0) 0

/-- One slice of the donut.  Angles are measured in units of π radians: the
source computes `ang = (d.value / total) * Math.PI * 2` starting from
`start = -Math.PI / 2`; we factor out the shared positive constant `Math.PI`,
so a full circle is `2` and the starting angle is `-1/2`. -/
structure Arc where
  start : ℚ
  ang : ℚ
deriving DecidableEq

/-- The arc-building loop of DonutChart.tsx (lines 19-33), restricted to the
angle bookkeeping: each slice spans `(d.value / total) * 2` (π-radian units)
and `start = end` is carried to the next slice. -/
def arcsGo (T : ℚ) : ℚ → List Slice → List Arc
  | _, [] => []
  | s, d :: t =>
    let ang := (d.value / T) * 2
    { start := s, ang := ang } :: arcsGo T (s + ang) t

/-- All donut arcs, starting at `-π/2` (here `-1/2`). -/
def arcs (data : List Slice) : List Arc := arcsGo (total data) (-(1/2)) data

end Donut

/- ### `Home` chart geometry — src/src/HomePage.tsx, component `PremiumChart` -/

namespace Home

/-- `interface Pt { x:number; label:string; a:number; b?:number }`. -/
structure Pt where
  x : ℚ
  label : String
  a : ℚ
  b : Option ℚ
deriving DecidableEq

/-- HomePage.tsx line 135: `const totalA = series.reduce((s,p)=> s+p.a, 0)`. -/
def totalA (series : List Pt) : ℚ := series.foldl (fun s p => s + p.a) 0

/-- One pie slice of `PremiumChart` (angles in degrees, as in the source). -/
structure PieSlice where
  start : ℚ
  ang : ℚ
deriving DecidableEq

/-- The pie renderer loop (HomePage.tsx lines 245-263), restricted to the angle
bookkeeping: `let start = -90`, `ang = totalA ? (p.a/totalA)*360 : 0`,
`end = start + ang`, `start = end`. -/
def pieGo (T : ℚ) : ℚ → List Pt → List PieSlice
  | _, [] => []
  | s, p :: t =>
    let ang := if T = 0 then 0 else (p.a / T) * 360
    { start := s, ang := ang } :: pieGo T (s + ang) t

/-- All pie slices of `PremiumChart` in `pie` mode. -/
def pieSlices (series : List Pt) : List PieSlice := pieGo (totalA series) (-90) series

end Home

/- ### Shared HTTP response model and JS string helpers -/

/-- JS whitespace (the ECMAScript WhiteSpace and LineTerminator sets), as used
by `String.prototype.trim` and the regex class `\s`. -/
def jsIsWS (c : Char) : Bool :=
  c = ' ' || c = '\t' || c = '\n' || c = '\x0b' || c = '\x0c' || c = '\r' ||
  c = ' ' || c = ' ' || (' ' ≤ c && c ≤ ' ') ||
  c = ' ' || c = ' ' || c = ' ' || c = ' ' || c = '　' || c = '﻿'

/-- JS `s.trim()`: strip leading and trailing whitespace. -/
def jsTrim (s : String) : String :=
  String.mk (((s.data.dropWhile jsIsWS).reverse.dropWhile jsIsWS).reverse)

/-- Body of an HTTP response produced via `res.json({answer})`, `res.json({error})`
or `res.end(text)`. -/
inductive RespBody
  | answer (s : String)
  | error (s : String)
  | text (s : String)
deriving DecidableEq

/-- An HTTP response: a status code and a body. -/
structure Resp where
  status : Nat
  body : RespBody
deriving DecidableEq

/- ### `PagesApi` — src/pages/api/askura.ts -/

namespace PagesApi

/-- A row as received in the JSON request body.  Every field is optional: the
body is client-supplied JSON, and the handler guards its reads accordingly. -/
structure Row where
  period : Option String
  revenue : Option ℚ
  units : Option ℚ
  supplier : Option String
  costPrice : Option ℚ
  staffExp : Option ℚ
deriving DecidableEq

/-- `type Mode = 'line' | 'area' | 'bar' | 'scatter' | 'dual' | 'pie'`. -/
inductive Mode
  | line | area | bar | scatter | dual | pie
deriving DecidableEq

/-- `type MetricKey = 'revenue' | 'units' | 'costPrice' | 'staffExp'`. -/
inductive MetricKey
  | revenue | units | costPrice | staffExp
deriving DecidableEq

/-- The `context` object of the request body. -/
structure Ctx where
  mode : Mode
  yA : MetricKey
  yB : Option MetricKey
  secondaryOn : Bool
deriving DecidableEq

/-- The parsed request body `{question, rows, context}`.  `rows` is `none` when
the field is not an array (the handler tests `Array.isArray`). -/
structure Body where
  question : String
  rows : Option (List Row)
  context : Ctx
deriving DecidableEq

/-- Possible outcomes of the single upstream `fetch` to the chat-completion
API, as observed by the handler: the call (or reading its body) throws, the
response is non-ok with a body text, the response is ok but its body is not
valid JSON (so `r.json()` or `JSON.parse` throws), or it is ok JSON from which
`data?.choices?.[0]?.message?.content` extracts an optional string.  The
request payload sent to `fetch` (prompt, model, temperature) does not influence
anything the handler observes, so it is absorbed into this outcome. -/
inductive FetchOutcome
  | throws (msg : String)
  | notOk (status : Nat) (text : String)
  | okBadJson (msg : String)
  | ok (content : Option String)
deriving DecidableEq

/-- The local answer string built when no API key is set (line 25).  `trend`
is `none` when the JS computation would be `NaN` (both end rows present but a
`revenue` field missing); `NaN >= 0` is false, and `Math.abs(NaN)` prints as
`NaN`. -/
def localAnswer (totalRevenue : ℚ) (first lastR : Option Row) (trend : Option ℚ) : String :=
  "Askura (local): total revenue ≈ " ++ qToString totalRevenue ++ ". Trend from " ++
  ((first.bind Row.period).getD "start") ++ " to " ++ ((lastR.bind Row.period).getD "end") ++
  " is " ++ (match trend with | some t => if 0 ≤ t then "up" else "down" | none => "down") ++
  " by " ++ (match trend with | some t => qToString |t| | none => "NaN") ++
  ". (Add OPENAI_API_KEY to enable AI.)"

/-- The summary total of line 19:
`Array.isArray(rows) ? rows.reduce((s, r) => s + (r?.revenue ?? 0), 0) : 0`. -/
def totalRevenue (rows : Option (List Row)) : ℚ :=
  match rows with
  | some rs => rs.foldl (fun s r => s + r.revenue.getD 0) 0
  | none => 0

/-- Line 20: `Array.isArray(rows) && rows.length > 0 ? rows[0] : undefined`. -/
def firstRow (rows : Option (List Row)) : Option Row := rows.bind List.head?

/-- Line 21: `Array.isArray(rows) && rows.length > 0 ? rows[rows.length - 1] : undefined`. -/
def lastRow (rows : Option (List Row)) : Option Row := rows.bind List.getLast?

/-- Line 22: `first && last ? (last.revenue - first.revenue) : 0`.  The value
is `none` exactly when JS would compute `NaN`: both end rows present but a
`revenue` field missing from one of them. -/
def trendOf (rows : Option (List Row)) : Option ℚ :=
  match firstRow rows, lastRow rows with
  | some f, some l =>
    (match f.revenue, l.revenue with
     | some fr, some lr => some (lr - fr)
     | _, _ => none)
  | _, _ => some 0

/-- The pages/api/askura.ts handler (lines 8-60).  Inputs: request method,
parsed body (`none` models a `req.body` whose destructuring throws — the
`TypeError` is caught at line 57 and its engine-specific message is modelled by
a fixed string), the `OPENAI_API_KEY` environment variable, and the outcome of
the upstream fetch.  Output: the HTTP response paired with the number of
upstream calls made. -/
def handler (method : String) (body : Option Body) (apiKey : Option String)
    (fetch : FetchOutcome) : Resp × Nat :=
  if method ≠ "POST" then ({ status := 405, body := .error "Method Not Allowed" }, 0)
  else
    match body with
    | none => ({ status := 500, body := .error "Cannot destructure request body" }, 0)
    | some b =>
      let total := totalRevenue b.rows
      let first : Option Row := firstRow b.rows
      let lastR : Option Row := lastRow b.rows
      let trend : Option ℚ := trendOf b.rows
      match apiKey with
      | none => ({ status := 200, body := .answer (localAnswer total first lastR trend) }, 0)
      | some _ =>
        match fetch with
        | .throws msg => ({ status := 500, body := .error msg }, 1)
        | .notOk _ text => ({ status := 500, body := .error ("OpenAI error: " ++ text) }, 1)
        | .okBadJson msg => ({ status := 500, body := .error msg }, 1)
        | .ok content => ({ status := 200, body := .answer ((content.map jsTrim).getD "No answer.") }, 1)

end PagesApi

/- ### `ApiAskura` — src/api/askura.ts -/

namespace ApiAskura

/-- The `AskPayload` body.  `req.body || {}` makes a missing body an empty
object, so every field is optional. -/
structure Payload where
  question : Option String
  rows : Option (List PagesApi.Row)
  context : Option PagesApi.Ctx
deriving DecidableEq

/-- Outcome of the single `openai.chat.completions.create` call: it throws
(network error, bad key, etc.) or returns a completion whose
`choices?.[0]?.message?.content` is an optional string. -/
inductive ChatOutcome
  | throws (msg : String)
  | ok (content : Option String)
deriving DecidableEq

/-- The src/api/askura.ts handler (lines 21-66).  On a non-POST request it
answers 405 with the plain text `Method Not Allowed` (via `res.end`, not
JSON). -/
def handler (method : String) (body : Option Payload) (apiKey : Option String)
    (chat : ChatOutcome) : Resp × Nat :=
  if method ≠ "POST" then ({ status := 405, body := .text "Method Not Allowed" }, 0)
  else
    let b := body.getD { question := none, rows := none, context := none }
    if b.question.getD "" = "" || b.rows.isNone then
      ({ status := 400, body := .error "Missing question or rows" }, 0)
    else
      match apiKey with
      | none => ({ status := 500, body := .error "Server missing OPENAI_API_KEY" }, 0)
      | some _ =>
        match chat with
        | .throws _ => ({ status := 500, body := .error "Askura backend error" }, 1)
        | .ok content => ({ status := 200, body := .answer (content.getD "No answer.") }, 1)

end ApiAskura

/- ### `Api5` — src/unnamed/part_005 (pages/api/askura.ts variant) -/

namespace Api5

/-- The request body: all fields are declared optional in this variant. -/
structure Payload where
  question : Option String
  rows : Option (List PagesApi.Row)
  context : Option PagesApi.Ctx
deriving DecidableEq

/-- The part_005 handler.  Compared with `PagesApi.handler` it validates the
body (400), answers 401 when the key is missing, and maps upstream failures to
502. -/
def handler (method : String) (body : Option Payload) (apiKey : Option String)
    (fetch : PagesApi.FetchOutcome) : Resp × Nat :=
  if method ≠ "POST" then ({ status := 405, body := .error "Method Not Allowed. Use POST." }, 0)
  else
    match body with
    | none => ({ status := 500, body := .error "Cannot destructure request body" }, 0)
    | some b =>
      if b.question.getD "" = "" || b.rows.isNone || b.context.isNone then
        ({ status := 400, body := .error "Bad Request: missing \"question\", \"rows\", or \"context\"." }, 0)
      else
        match apiKey with
        | none => ({ status := 401, body := .error "OPENAI_API_KEY is not set on the server." }, 0)
        | some _ =>
          match fetch with
          | .throws msg => ({ status := 500, body := .error msg }, 1)
          | .notOk st text =>
            ({ status := 502, body := .error ("OpenAI error (" ++ toString st ++ "): " ++ text) }, 1)
          | .okBadJson _ => ({ status := 502, body := .error "Invalid JSON from OpenAI." }, 1)
          | .ok content =>
            match (content.map jsTrim).getD "" with
            | "" => ({ status := 502, body := .error "No answer from OpenAI." }, 1)
            | s => ({ status := 200, body := .answer s }, 1)

end Api5

/- ### `Home` base types — src/src/HomePage.tsx (Rev 17) -/

namespace Home

/-- `type Mode = 'line' | 'area' | 'bar' | 'scatter' | 'dual' | 'pie'`. -/
inductive Mode
  | line | area | bar | scatter | dual | pie
deriving DecidableEq

/-- String form of a `Mode`, as interpolated into answer text. -/
def Mode.toStr : Mode → String
  | .line => "line"
  | .area => "area"
  | .bar => "bar"
  | .scatter => "scatter"
  | .dual => "dual"
  | .pie => "pie"

/-- `type MetricKey = 'revenue' | 'units' | 'costPrice' | 'staffExp'`. -/
inductive MetricKey
  | revenue | units | costPrice | staffExp
deriving DecidableEq

/-- The `METRIC_LABEL` record (HomePage.tsx lines 28-33). -/
def METRIC_LABEL : MetricKey → String
  | .revenue => "Sales (Revenue)"
  | .units => "Sales Units"
  | .costPrice => "Cost Price"
  | .staffExp => "Staff Expenses"

/-- The chart context handed to Askura:
`{mode:Mode; yA:MetricKey; yB?:MetricKey; secondaryOn:boolean}`. -/
structure Ctx where
  mode : Mode
  yA : MetricKey
  yB : Option MetricKey
  secondaryOn : Bool
deriving DecidableEq

/-- `interface Row` (HomePage.tsx lines 18-25): the typed in-memory table. -/
structure Row where
  period : String
  revenue : ℚ
  units : ℚ
  supplier : String
  costPrice : ℚ
  staffExp : ℚ
deriving DecidableEq

/-- The client-side Askura helper (HomePage.tsx lines 346-361).  The single
fetch to the chat-completion API is abstracted by its outcome; any thrown error
(non-ok response included, via `throw new Error(await r.text())`) is caught and
mapped to the fixed fallback sentence.  The result is the answer text paired
with the number of upstream calls made. -/
def askOpenAI (_apiKey _prompt : String) (_rows : List Row) (_context : Ctx)
    (fetch : PagesApi.FetchOutcome) : String × Nat :=
  match fetch with
  | .throws _ => ("AI backend is unavailable in this demo environment. Using built-in logic instead.", 1)
  | .notOk _ _ => ("AI backend is unavailable in this demo environment. Using built-in logic instead.", 1)
  | .okBadJson _ => ("AI backend is unavailable in this demo environment. Using built-in logic instead.", 1)
  | .ok content => (content.getD "No answer.", 1)

end Home

/- ### Shared list and string lemmas -/

/-- A left fold accumulating `+ f a` computes the initial value plus the sum of
the mapped list. -/
theorem foldl_add_eq_sum {α : Type} (f : α → ℚ) (l : List α) (init : ℚ) :
    l.foldl (fun s a => s + f a) init = init + (l.map f).sum := by
  induction l generalizing init with
  | nil => simp
  | cons a t ih => simp [ih, add_assoc]

/-- Appending to a non-empty string yields a non-empty string. -/
theorem append_ne_empty (s t : String) (h : s ≠ "") : s ++ t ≠ "" := by
  intro he
  apply h
  have hd : s.data ++ t.data = ([] : List Char) := by
    have hc := congrArg String.data he
    simpa [String.data_append] using hc
  have hs : s.data = [] := (List.append_eq_nil.mp hd).1
  cases s with
  | mk d => simp_all

/-- Summing a list mapped through `fun a => f a * c` multiplies the mapped sum
by `c`. -/
theorem sum_map_mul {α : Type} (f : α → ℚ) (c : ℚ) (l : List α) :
    (l.map (fun a => f a * c)).sum = (l.map f).sum * c := by
  induction l with
  | nil => simp
  | cons a t ih => simp [ih, add_mul]

/- ### Demo inputs used by witnesses -/

/-- A small concrete KPI table. -/
def kpiDemo : List Kpi.Row :=
  [{ period := "2020", revenue := some 300, units := some 240 },
   { period := "2023", revenue := some 460, units := some 310 },
   { period := "2025", revenue := some 590, units := some 380 }]

/-- A small concrete API-row table. -/
def apiDemoRows : List PagesApi.Row :=
  [{ period := some "2020", revenue := some 300, units := some 240,
     supplier := some "Northstar", costPrice := some (88/100), staffExp := some 40 },
   { period := some "2025", revenue := some 590, units := some 380,
     supplier := some "Skyline", costPrice := some (96/100), staffExp := some 58 }]

/-- A concrete request context. -/
def apiDemoCtx : PagesApi.Ctx :=
  { mode := .line, yA := .revenue, yB := none, secondaryOn := false }

/-- A concrete well-formed request body for the pages handler. -/
def apiDemoBody : PagesApi.Body :=
  { question := "What is the total revenue?", rows := some apiDemoRows, context := apiDemoCtx }

/- ### C3 — aggregate arithmetic -/

/-- C3: the aggregate functions are arithmetically correct: `totalRev` of
`PremiumKpiCards` and the pages handler summary `totalRevenue` each equal the
sum over all rows of the revenue field (missing values counted as `0`);
`pct a b` equals `((b - a) / a) * 100` (with the division-by-zero convention of
`ℚ` this also covers the guarded `a = 0` case, where both sides are `0`); and
`growthPct` is `pct` applied to the first and last rows' revenues. -/
theorem aggregates_arithmetically_correct :
    (∀ rows : List Kpi.Row, Kpi.totalRev rows = (rows.map (fun r => r.revenue.getD 0)).sum) ∧
    (∀ rows : List PagesApi.Row,
      PagesApi.totalRevenue (some rows) = (rows.map (fun r => r.revenue.getD 0)).sum) ∧
    (∀ a b : ℚ, Kpi.pct a b = ((b - a) / a) * 100) ∧
    (∀ rows : List Kpi.Row, ∀ h : rows ≠ [],
      Kpi.growthPct rows =
        (((rows.getLast h).revenue.getD 0 - (rows.head h).revenue.getD 0) /
          (rows.head h).revenue.getD 0) * 100) := by
  have hpct : ∀ a b : ℚ, Kpi.pct a b = ((b - a) / a) * 100 := by
    intro a b
    unfold Kpi.pct
    split
    · rename_i h0
      subst h0
      simp
    · rfl
  refine ⟨?_, ?_, hpct, ?_⟩
  · intro rows
    unfold Kpi.totalRev
    simpa using foldl_add_eq_sum (fun r => r.revenue.getD 0) rows 0
  · intro rows
    unfold PagesApi.totalRevenue
    simpa using foldl_add_eq_sum (fun r => r.revenue.getD 0) rows 0
  · intro rows h
    unfold Kpi.growthPct
    rw [List.head?_eq_head h, List.getLast?_eq_getLast rows h]
    simp [hpct]

/-- Witness for C3 at a concrete table. -/
theorem aggregates_arithmetically_correct_witness :
    Kpi.growthPct kpiDemo =
      (((kpiDemo.getLast (by decide)).revenue.getD 0 - (kpiDemo.head (by decide)).revenue.getD 0) /
        (kpiDemo.head (by decide)).revenue.getD 0) * 100 :=
  aggregates_arithmetically_correct.2.2.2 kpiDemo (by decide)

/- ### C10 — division-safety guards -/

/-- C10: chart and KPI arithmetic is division-safe: `pct` returns `0` on a zero
base (a non-finite base has no rational counterpart), the `scaleLinear`
divisor is never `0` and is `1` exactly when the domain is degenerate, and the
donut total is clamped to at least `1`, so every divisor in these computations
is non-zero. -/
theorem division_safety :
    (∀ b : ℚ, Kpi.pct 0 b = 0) ∧
    (∀ dmin dmax : ℚ, Premium.scaleDenom dmin dmax ≠ 0) ∧
    (∀ dmin dmax : ℚ, dmin = dmax → Premium.scaleDenom dmin dmax = 1) ∧
    (∀ data : List Donut.Slice, 1 ≤ Donut.total data ∧ Donut.total data ≠ 0) := by
  refine ⟨?_, ?_, ?_, ?_⟩
  · intro b; simp [Kpi.pct]
  · intro dmin dmax
    unfold Premium.scaleDenom jsOrQ
    split
    · exact one_ne_zero
    · assumption
  · intro dmin dmax h
    subst h
    simp [Premium.scaleDenom, jsOrQ]
  · intro data
    have h1 : (1 : ℚ) ≤ Donut.total data := le_max_left 1 _
    exact ⟨h1, by positivity⟩

/-- Witness for C10 at concrete inputs. -/
theorem division_safety_witness :
    Premium.scaleDenom 7 7 = 1 ∧ (1 : ℚ) ≤ Donut.total [] :=
  ⟨division_safety.2.2.1 7 7 rfl, (division_safety.2.2.2 []).1⟩

/- ### C6 — best-year lookup -/

/-- Specification of the best-year fold: starting from accumulator `(y, v)`,
either no row beats `v` and the accumulator is returned unchanged, or the
result is the earliest row of `l` attaining the maximal revenue strictly above
`v`. -/
theorem bestFold_spec (l : List Kpi.Row) (y : String) (v : WithBot ℚ) :
    (l.foldl (fun b r => if b.2 < Kpi.toBot r.revenue then (r.period, Kpi.toBot r.revenue) else b)
        (y, v) = (y, v) ∧ ∀ r ∈ l, Kpi.toBot r.revenue ≤ v) ∨
    (∃ i, ∃ hi : i < l.length,
      l.foldl (fun b r => if b.2 < Kpi.toBot r.revenue then (r.period, Kpi.toBot r.revenue) else b)
          (y, v) = (l[i].period, Kpi.toBot l[i].revenue) ∧
      v < Kpi.toBot l[i].revenue ∧
      (∀ j, ∀ hj : j < l.length, Kpi.toBot l[j].revenue ≤ Kpi.toBot l[i].revenue) ∧
      (∀ j, ∀ hj : j < l.length, j < i → Kpi.toBot l[j].revenue < Kpi.toBot l[i].revenue)) := by
  induction l generalizing y v with
  | nil => left; exact ⟨rfl, by simp⟩
  | cons r t ih =>
    by_cases hc : v < Kpi.toBot r.revenue
    · rcases ih r.period (Kpi.toBot r.revenue) with ⟨hf, hall⟩ | ⟨i, hi, hf, hlt, hmax, hstrict⟩
      · right
        refine ⟨0, by simp, ?_, hc, ?_, ?_⟩
        · simpa [List.foldl_cons, if_pos hc] using hf
        · intro j hj
          cases j with
          | zero => simp
          | succ jj =>
            have hjj : jj < t.length := by simpa using hj
            simpa using hall t[jj] (List.getElem_mem hjj)
        · intro j hj hj0
          omega
      · right
        refine ⟨i + 1, by simpa using Nat.succ_lt_succ hi, ?_, ?_, ?_, ?_⟩
        · simpa [List.foldl_cons, if_pos hc] using hf
        · exact lt_trans hc hlt
        · intro j hj
          cases j with
          | zero => simpa using le_of_lt hlt
          | succ jj =>
            have hjj : jj < t.length := by simpa using hj
            simpa using hmax jj hjj
        · intro j hj hji
          cases j with
          | zero => simpa using hlt
          | succ jj =>
            have hjj : jj < t.length := by simpa using hj
            simpa using hstrict jj hjj (by omega)
    · rcases ih y v with ⟨hf, hall⟩ | ⟨i, hi, hf, hlt, hmax, hstrict⟩
      · left
        constructor
        · simpa [List.foldl_cons, if_neg hc] using hf
        · intro r' hr'
          rcases List.mem_cons.mp hr' with h0 | hmem
          · subst h0
            exact not_lt.mp hc
          · exact hall r' hmem
      · right
        refine ⟨i + 1, by simpa using Nat.succ_lt_succ hi, ?_, hlt, ?_, ?_⟩
        · simpa [List.foldl_cons, if_neg hc] using hf
        · intro j hj
          cases j with
          | zero =>
            have hr : Kpi.toBot r.revenue ≤ v := not_lt.mp hc
            simpa using le_trans hr (le_of_lt hlt)
          | succ jj =>
            have hjj : jj < t.length := by simpa using hj
            simpa using hmax jj hjj
        · intro j hj hji
          cases j with
          | zero =>
            have hr : Kpi.toBot r.revenue ≤ v := not_lt.mp hc
            simpa using lt_of_le_of_lt hr hlt
          | succ jj =>
            have hjj : jj < t.length := by simpa using hj
            simpa using hstrict jj hjj (by omega)

/-- C6: for a non-empty table, the best-year scan of `PremiumKpiCards` returns
the period of a row whose revenue is maximal among all rows, namely the
earliest such row (all rows before it have strictly smaller revenue). -/
theorem bestYear_earliest_argmax (rows : List Kpi.Row) (h : rows ≠ []) :
    ∃ i, ∃ hi : i < rows.length,
      Kpi.bestYear rows = rows[i].period ∧
      (∀ j, ∀ hj : j < rows.length, Kpi.toBot rows[j].revenue ≤ Kpi.toBot rows[i].revenue) ∧
      (∀ j, ∀ hj : j < rows.length, j < i →
        Kpi.toBot rows[j].revenue < Kpi.toBot rows[i].revenue) := by
  obtain ⟨r, t, rfl⟩ := List.exists_cons_of_ne_nil h
  unfold Kpi.bestYear Kpi.bestPair
  rcases bestFold_spec (r :: t) r.period (Kpi.toBot r.revenue) with ⟨hf, hall⟩ |
    ⟨i, hi, hf, _hlt, hmax, hstrict⟩
  · refine ⟨0, by simp, ?_, ?_, ?_⟩
    · simp [hf]
    · intro j hj
      simpa using hall (r :: t)[j] (List.getElem_mem hj)
    · intro j hj hj0
      omega
  · refine ⟨i, hi, ?_, hmax, hstrict⟩
    simp [hf]

/-- Witness for C6 at a concrete table. -/
theorem bestYear_earliest_argmax_witness :
    ∃ i, ∃ hi : i < kpiDemo.length,
      Kpi.bestYear kpiDemo = kpiDemo[i].period ∧
      (∀ j, ∀ hj : j < kpiDemo.length, Kpi.toBot kpiDemo[j].revenue ≤ Kpi.toBot kpiDemo[i].revenue) ∧
      (∀ j, ∀ hj : j < kpiDemo.length, j < i →
        Kpi.toBot kpiDemo[j].revenue < Kpi.toBot kpiDemo[i].revenue) :=
  bestYear_earliest_argmax kpiDemo (by decide)

/- ### C5 — pie-slice geometry -/

/-- Dividing each mapped value by `T` and scaling by `c` scales the sum. -/
theorem sum_map_div_mul {α : Type} (f : α → ℚ) (T c : ℚ) (l : List α) :
    (l.map (fun a => f a / T * c)).sum = (l.map f).sum / T * c := by
  induction l with
  | nil => simp
  | cons a t ih =>
    simp only [List.map_cons, List.sum_cons, ih]
    ring

/-- `jsOrQ x 0` is the identity on rationals. -/
theorem jsOrQ_zero (x : ℚ) : jsOrQ x 0 = x := by
  unfold jsOrQ
  split <;> simp_all

/-- `totalA` is the sum of the primary values. -/
theorem totalA_eq_sum (series : List Home.Pt) :
    Home.totalA series = (series.map Home.Pt.a).sum := by
  unfold Home.totalA
  simpa using foldl_add_eq_sum Home.Pt.a series 0

/-- `Donut.seriesSum` is the sum of the slice values. -/
theorem donut_seriesSum_eq_sum (data : List Donut.Slice) :
    Donut.seriesSum data = (data.map Donut.Slice.value).sum := by
  unfold Donut.seriesSum
  simpa [jsOrQ_zero] using foldl_add_eq_sum Donut.Slice.value data 0

theorem pieGo_length (T s : ℚ) (l : List Home.Pt) :
    (Home.pieGo T s l).length = l.length := by
  induction l generalizing s with
  | nil => rfl
  | cons p t ih => simp [Home.pieGo, ih]

theorem pieGo_map_ang (T : ℚ) (hT : T ≠ 0) (s : ℚ) (l : List Home.Pt) :
    (Home.pieGo T s l).map Home.PieSlice.ang = l.map (fun p => p.a / T * 360) := by
  induction l generalizing s with
  | nil => rfl
  | cons p t ih => simp [Home.pieGo, if_neg hT, ih]

theorem pieGo_head_start (T s : ℚ) (l : List Home.Pt) (h : l ≠ []) :
    ((Home.pieGo T s l).head?).map Home.PieSlice.start = some s := by
  cases l with
  | nil => exact absurd rfl h
  | cons p t => rfl

theorem pieGo_getElem_start_zero (T s : ℚ) (l : List Home.Pt)
    (h : 0 < (Home.pieGo T s l).length) :
    (Home.pieGo T s l)[0].start = s := by
  cases l with
  | nil => simp [Home.pieGo] at h
  | cons p t => rfl

theorem pieGo_chain (T : ℚ) (s : ℚ) (l : List Home.Pt) :
    ∀ i, ∀ h1 : i < (Home.pieGo T s l).length, ∀ h2 : i + 1 < (Home.pieGo T s l).length,
      (Home.pieGo T s l)[i + 1].start =
        (Home.pieGo T s l)[i].start + (Home.pieGo T s l)[i].ang := by
  induction l generalizing s with
  | nil =>
    intro i h1 h2
    simp [Home.pieGo] at h1
  | cons p t ih =>
    intro i h1 h2
    simp only [Home.pieGo]
    cases i with
    | zero =>
      have hrest : 0 < (Home.pieGo T (s + (if T = 0 then 0 else p.a / T * 360)) t).length := by
        have hl := h2
        simp only [Home.pieGo, List.length_cons] at hl
        omega
      simp only [List.getElem_cons_succ, List.getElem_cons_zero]
      exact pieGo_getElem_start_zero T _ t hrest
    | succ j =>
      have h1' : j < (Home.pieGo T (s + (if T = 0 then 0 else p.a / T * 360)) t).length := by
        have hl := h1
        simp only [Home.pieGo, List.length_cons] at hl
        omega
      have h2' : j + 1 < (Home.pieGo T (s + (if T = 0 then 0 else p.a / T * 360)) t).length := by
        have hl := h2
        simp only [Home.pieGo, List.length_cons] at hl
        omega
      simp only [List.getElem_cons_succ]
      exact ih _ j h1' h2'

theorem donutGo_length (T s : ℚ) (l : List Donut.Slice) :
    (Donut.arcsGo T s l).length = l.length := by
  induction l generalizing s with
  | nil => rfl
  | cons d t ih => simp [Donut.arcsGo, ih]

theorem donutGo_map_ang (T s : ℚ) (l : List Donut.Slice) :
    (Donut.arcsGo T s l).map Donut.Arc.ang = l.map (fun d => d.value / T * 2) := by
  induction l generalizing s with
  | nil => rfl
  | cons d t ih => simp [Donut.arcsGo, ih]

theorem donutGo_head_start (T s : ℚ) (l : List Donut.Slice) (h : l ≠ []) :
    ((Donut.arcsGo T s l).head?).map Donut.Arc.start = some s := by
  cases l with
  | nil => exact absurd rfl h
  | cons d t => rfl

theorem donutGo_getElem_start_zero (T s : ℚ) (l : List Donut.Slice)
    (h : 0 < (Donut.arcsGo T s l).length) :
    (Donut.arcsGo T s l)[0].start = s := by
  cases l with
  | nil => simp [Donut.arcsGo] at h
  | cons d t => rfl

theorem donutGo_chain (T : ℚ) (s : ℚ) (l : List Donut.Slice) :
    ∀ i, ∀ h1 : i < (Donut.arcsGo T s l).length, ∀ h2 : i + 1 < (Donut.arcsGo T s l).length,
      (Donut.arcsGo T s l)[i + 1].start =
        (Donut.arcsGo T s l)[i].start + (Donut.arcsGo T s l)[i].ang := by
  induction l generalizing s with
  | nil =>
    intro i h1 h2
    simp [Donut.arcsGo] at h1
  | cons d t ih =>
    intro i h1 h2
    simp only [Donut.arcsGo]
    cases i with
    | zero =>
      have hrest : 0 < (Donut.arcsGo T (s + d.value / T * 2) t).length := by
        have hl := h2
        simp only [Donut.arcsGo, List.length_cons] at hl
        omega
      simp only [List.getElem_cons_succ, List.getElem_cons_zero]
      exact donutGo_getElem_start_zero T _ t hrest
    | succ j =>
      have h1' : j < (Donut.arcsGo T (s + d.value / T * 2) t).length := by
        have hl := h1
        simp only [Donut.arcsGo, List.length_cons] at hl
        omega
      have h2' : j + 1 < (Donut.arcsGo T (s + d.value / T * 2) t).length := by
        have hl := h2
        simp only [Donut.arcsGo, List.length_cons] at hl
        omega
      simp only [List.getElem_cons_succ]
      exact ih _ j h1' h2'

/-- Counterexample to C5 as stated: for the donut series with the single value
`1/2` the series total is positive, yet the computed slice angle is half a
turn (`1` in π-radian units) — not `(value / total) × full-circle = 2` — and
the slice angles sum to `1`, not to the full circle `2`: the divisor is
`max 1 total`, not `total`. -/
theorem donut_small_total_counterexample :
    Donut.seriesSum [{ label := "a", value := 1/2 }] = 1/2 ∧
    0 < Donut.seriesSum [{ label := "a", value := 1/2 }] ∧
    (Donut.arcs [{ label := "a", value := 1/2 }]).map Donut.Arc.ang = [1] ∧
    (1 : ℚ) ≠ 1/2 / (1/2) * 2 ∧
    ((Donut.arcs [{ label := "a", value := 1/2 }]).map Donut.Arc.ang).sum ≠ 2 := by
  refine ⟨?_, ?_, ?_, ?_, ?_⟩ <;>
    norm_num [Donut.arcs, Donut.arcsGo, Donut.total, Donut.seriesSum, jsOrQ]

/-- C5 (amended): for every non-empty series with positive total, the
`PremiumChart` pie geometry is correct: slice angles are `(a / total) * 360`,
the first slice starts at `-90`, each slice starts where the previous one
ended, and the angles sum to `360`.  The donut chart divides by
`max 1 total`, so the same four properties (in π-radian units, full circle
`2`, start `-1/2`) hold for it whenever the series total is at least `1`;
for `0 < total < 1` the slices underfill the circle. -/
theorem pie_slice_geometry :
    (∀ series : List Home.Pt, series ≠ [] → 0 < Home.totalA series →
      (Home.pieSlices series).map Home.PieSlice.ang =
          series.map (fun p => p.a / Home.totalA series * 360) ∧
      ((Home.pieSlices series).head?).map Home.PieSlice.start = some (-90) ∧
      (∀ i, ∀ h1 : i < (Home.pieSlices series).length,
        ∀ h2 : i + 1 < (Home.pieSlices series).length,
        (Home.pieSlices series)[i + 1].start =
          (Home.pieSlices series)[i].start + (Home.pieSlices series)[i].ang) ∧
      ((Home.pieSlices series).map Home.PieSlice.ang).sum = 360) ∧
    (∀ data : List Donut.Slice, data ≠ [] → 1 ≤ Donut.seriesSum data →
      (Donut.arcs data).map Donut.Arc.ang =
          data.map (fun d => d.value / Donut.seriesSum data * 2) ∧
      ((Donut.arcs data).head?).map Donut.Arc.start = some (-(1/2)) ∧
      (∀ i, ∀ h1 : i < (Donut.arcs data).length, ∀ h2 : i + 1 < (Donut.arcs data).length,
        (Donut.arcs data)[i + 1].start =
          (Donut.arcs data)[i].start + (Donut.arcs data)[i].ang) ∧
      ((Donut.arcs data).map Donut.Arc.ang).sum = 2) := by
  constructor
  · intro series hne hpos
    have hT : Home.totalA series ≠ 0 := ne_of_gt hpos
    refine ⟨pieGo_map_ang _ hT _ _, pieGo_head_start _ _ _ hne, pieGo_chain _ _ _, ?_⟩
    unfold Home.pieSlices
    rw [pieGo_map_ang _ hT, sum_map_div_mul Home.Pt.a (Home.totalA series) 360,
      ← totalA_eq_sum, div_self hT, one_mul]
  · intro data hne hge
    have hS : Donut.seriesSum data ≠ 0 := by
      intro h0
      rw [h0] at hge
      norm_num at hge
    have htot : Donut.total data = Donut.seriesSum data := max_eq_right hge
    refine ⟨?_, donutGo_head_start _ _ _ hne, donutGo_chain _ _ _, ?_⟩
    · unfold Donut.arcs
      rw [htot, donutGo_map_ang]
    · unfold Donut.arcs
      rw [htot, donutGo_map_ang, sum_map_div_mul Donut.Slice.value (Donut.seriesSum data) 2,
        ← donut_seriesSum_eq_sum, div_self hS, one_mul]

/-- A small pie series. -/
def pieDemo : List Home.Pt :=
  [{ x := 0, label := "2020", a := 1, b := none }, { x := 1, label := "2021", a := 3, b := none }]

/-- A small donut series. -/
def donutDemo : List Donut.Slice := [{ label := "a", value := 2 }, { label := "b", value := 2 }]

/-- Witness for the amended C5 at concrete series. -/
theorem pie_slice_geometry_witness :
    (Home.pieSlices pieDemo).map Home.PieSlice.ang =
        pieDemo.map (fun p => p.a / Home.totalA pieDemo * 360) ∧
    ((Home.pieSlices pieDemo).map Home.PieSlice.ang).sum = 360 ∧
    ((Donut.arcs donutDemo).map Donut.Arc.ang).sum = 2 :=
  ⟨(pie_slice_geometry.1 pieDemo (by decide) (by norm_num [pieDemo, Home.totalA])).1,
   (pie_slice_geometry.1 pieDemo (by decide) (by norm_num [pieDemo, Home.totalA])).2.2.2,
   (pie_slice_geometry.2 donutDemo (by decide)
     (by norm_num [donutDemo, Donut.seriesSum, jsOrQ])).2.2.2⟩

/- ### C1 — response shape of the askura endpoint handlers -/

/-- Does a response body have the `{answer: string}` shape? -/
def RespBody.isAnswer : RespBody → Bool
  | .answer _ => true
  | _ => false

/-- Does a response body have the `{error: string}` shape? -/
def RespBody.isError : RespBody → Bool
  | .error _ => true
  | _ => false

/-- C1: for every request to either askura endpoint handler, a non-POST method
is rejected with status 405, and a POST request is answered either with an
`{answer: string}` body and status 200 or with an `{error: string}` body and a
4xx/5xx status — no other response shape occurs. -/
theorem askura_response_shape :
    (∀ (method : String) (body : Option PagesApi.Body) (apiKey : Option String)
        (fetch : PagesApi.FetchOutcome),
      (method ≠ "POST" → (PagesApi.handler method body apiKey fetch).1.status = 405) ∧
      (method = "POST" →
        ((PagesApi.handler method body apiKey fetch).1.body.isAnswer = true ∧
          (PagesApi.handler method body apiKey fetch).1.status = 200) ∨
        ((PagesApi.handler method body apiKey fetch).1.body.isError = true ∧
          400 ≤ (PagesApi.handler method body apiKey fetch).1.status ∧
          (PagesApi.handler method body apiKey fetch).1.status ≤ 599))) ∧
    (∀ (method : String) (body : Option ApiAskura.Payload) (apiKey : Option String)
        (chat : ApiAskura.ChatOutcome),
      (method ≠ "POST" → (ApiAskura.handler method body apiKey chat).1.status = 405) ∧
      (method = "POST" →
        ((ApiAskura.handler method body apiKey chat).1.body.isAnswer = true ∧
          (ApiAskura.handler method body apiKey chat).1.status = 200) ∨
        ((ApiAskura.handler method body apiKey chat).1.body.isError = true ∧
          400 ≤ (ApiAskura.handler method body apiKey chat).1.status ∧
          (ApiAskura.handler method body apiKey chat).1.status ≤ 599))) := by
  constructor
  · intro method body apiKey fetch
    constructor
    · intro hm
      simp [PagesApi.handler, hm]
    · intro hm
      subst hm
      rcases body with _ | b
      · right
        refine ⟨rfl, by norm_num [PagesApi.handler], by norm_num [PagesApi.handler]⟩
      · rcases apiKey with _ | k
        · left
          exact ⟨rfl, rfl⟩
        · rcases fetch with msg | ⟨st, txt⟩ | msg | content
          · right
            exact ⟨rfl, by norm_num [PagesApi.handler], by norm_num [PagesApi.handler]⟩
          · right
            exact ⟨rfl, by norm_num [PagesApi.handler], by norm_num [PagesApi.handler]⟩
          · right
            exact ⟨rfl, by norm_num [PagesApi.handler], by norm_num [PagesApi.handler]⟩
          · left
            exact ⟨rfl, rfl⟩
  · intro method body apiKey chat
    constructor
    · intro hm
      simp [ApiAskura.handler, hm]
    · intro hm
      subst hm
      rcases body with _ | b
      · right
        refine ⟨rfl, by norm_num [ApiAskura.handler], by norm_num [ApiAskura.handler]⟩
      · cases hg : (decide (b.question.getD "" = "") || b.rows.isNone) with
        | true =>
          right
          refine ⟨?_, ?_, ?_⟩ <;> simp [ApiAskura.handler, hg, RespBody.isError]
        | false =>
          rcases apiKey with _ | k
          · right
            refine ⟨?_, ?_, ?_⟩ <;> simp [ApiAskura.handler, hg, RespBody.isError]
          · rcases chat with msg | content
            · right
              refine ⟨?_, ?_, ?_⟩ <;> simp [ApiAskura.handler, hg, RespBody.isError]
            · left
              refine ⟨?_, ?_⟩ <;> simp [ApiAskura.handler, hg, RespBody.isAnswer]

/-- Witness for C1: a GET request is rejected with 405, and a concrete
successful POST answers 200 with an answer body. -/
theorem askura_response_shape_witness :
    (PagesApi.handler "GET" none none (.ok none)).1.status = 405 ∧
    (ApiAskura.handler "GET" none none (.ok none)).1.status = 405 ∧
    ((PagesApi.handler "POST" (some apiDemoBody) none (.ok none)).1.body.isAnswer = true ∧
      (PagesApi.handler "POST" (some apiDemoBody) none (.ok none)).1.status = 200) ∨
    ((PagesApi.handler "POST" (some apiDemoBody) none (.ok none)).1.body.isError = true ∧
      400 ≤ (PagesApi.handler "POST" (some apiDemoBody) none (.ok none)).1.status ∧
      (PagesApi.handler "POST" (some apiDemoBody) none (.ok none)).1.status ≤ 599) := by
  left
  refine ⟨(askura_response_shape.1 "GET" none none (.ok none)).1 (by decide),
    (askura_response_shape.2 "GET" none none (.ok none)).1 (by decide), ?_⟩
  rcases (askura_response_shape.1 "POST" (some apiDemoBody) none (.ok none)).2 rfl with h | h
  · exact h
  · exact absurd h.1 (by decide)

/- ### C2 — failure recovery of the askura route -/

/-- Counterexample to C2 as stated: with the server API key absent (so the
upstream chat-completion call cannot be made) the pages handler does not
return an error string — it answers status 200 with the locally computed
summary answer. -/
theorem local_answer_counterexample :
    (PagesApi.handler "POST" (some apiDemoBody) none (.throws "network down")).1.status = 200 ∧
    (PagesApi.handler "POST" (some apiDemoBody) none (.throws "network down")).1.body =
      .answer (PagesApi.localAnswer (PagesApi.totalRevenue apiDemoBody.rows)
        (PagesApi.firstRow apiDemoBody.rows) (PagesApi.lastRow apiDemoBody.rows)
        (PagesApi.trendOf apiDemoBody.rows)) ∧
    (PagesApi.handler "POST" (some apiDemoBody) none (.throws "network down")).1.body.isAnswer
      = true :=
  ⟨rfl, rfl, rfl⟩

/-- C2 (amended): when the upstream chat-completion call is actually made and
fails — it throws, returns a non-ok status, or returns unparsable JSON — the
pages handler recovers only by returning a 500 error string, and the part_005
variant only by a 502 error string (500 when the fetch itself throws); but
when the server API key is absent, the pages handler instead substitutes the
locally computed summary answer with status 200, while part_005 returns a 401
error string. -/
theorem askura_failure_recovery :
    (∀ (b : PagesApi.Body) (k msg : String),
      (PagesApi.handler "POST" (some b) (some k) (.throws msg)).1.status = 500 ∧
      (PagesApi.handler "POST" (some b) (some k) (.throws msg)).1.body.isError = true) ∧
    (∀ (b : PagesApi.Body) (k : String) (st : Nat) (txt : String),
      (PagesApi.handler "POST" (some b) (some k) (.notOk st txt)).1.status = 500 ∧
      (PagesApi.handler "POST" (some b) (some k) (.notOk st txt)).1.body.isError = true) ∧
    (∀ (b : PagesApi.Body) (k msg : String),
      (PagesApi.handler "POST" (some b) (some k) (.okBadJson msg)).1.status = 500 ∧
      (PagesApi.handler "POST" (some b) (some k) (.okBadJson msg)).1.body.isError = true) ∧
    (∀ (b : PagesApi.Body) (fetch : PagesApi.FetchOutcome),
      (PagesApi.handler "POST" (some b) none fetch).1 =
        { status := 200,
          body := .answer (PagesApi.localAnswer (PagesApi.totalRevenue b.rows)
            (PagesApi.firstRow b.rows) (PagesApi.lastRow b.rows) (PagesApi.trendOf b.rows)) }) ∧
    (∀ (q : String) (rs : List PagesApi.Row) (c : PagesApi.Ctx) (fetch : PagesApi.FetchOutcome),
      q ≠ "" →
      (Api5.handler "POST" (some { question := some q, rows := some rs, context := some c })
          none fetch).1 =
        { status := 401, body := .error "OPENAI_API_KEY is not set on the server." }) ∧
    (∀ (q : String) (rs : List PagesApi.Row) (c : PagesApi.Ctx) (k msg : String),
      q ≠ "" →
      (Api5.handler "POST" (some { question := some q, rows := some rs, context := some c })
          (some k) (.throws msg)).1 =
        { status := 500, body := .error msg }) ∧
    (∀ (q : String) (rs : List PagesApi.Row) (c : PagesApi.Ctx) (k : String) (st : Nat)
        (txt : String),
      q ≠ "" →
      (Api5.handler "POST" (some { question := some q, rows := some rs, context := some c })
          (some k) (.notOk st txt)).1 =
        { status := 502, body := .error ("OpenAI error (" ++ toString st ++ "): " ++ txt) }) ∧
    (∀ (q : String) (rs : List PagesApi.Row) (c : PagesApi.Ctx) (k msg : String),
      q ≠ "" →
      (Api5.handler "POST" (some { question := some q, rows := some rs, context := some c })
          (some k) (.okBadJson msg)).1 =
        { status := 502, body := .error "Invalid JSON from OpenAI." }) := by
  refine ⟨?_, ?_, ?_, ?_, ?_, ?_, ?_, ?_⟩
  · intro b k msg
    exact ⟨rfl, rfl⟩
  · intro b k st txt
    exact ⟨rfl, rfl⟩
  · intro b k msg
    exact ⟨rfl, rfl⟩
  · intro b fetch
    rfl
  · intro q rs c fetch hq
    simp [Api5.handler, hq]
  · intro q rs c k msg hq
    simp [Api5.handler, hq]
  · intro q rs c k st txt hq
    simp [Api5.handler, hq]
  · intro q rs c k msg hq
    simp [Api5.handler, hq]

/-- Witness for the amended C2 at concrete inputs. -/
theorem askura_failure_recovery_witness :
    (PagesApi.handler "POST" (some apiDemoBody) (some "sk-demo") (.throws "boom")).1.status = 500 ∧
    (Api5.handler "POST"
        (some { question := some "Total?", rows := some apiDemoRows, context := some apiDemoCtx })
        none (.ok none)).1 =
      { status := 401, body := .error "OPENAI_API_KEY is not set on the server." } ∧
    (Api5.handler "POST"
        (some { question := some "Total?", rows := some apiDemoRows, context := some apiDemoCtx })
        (some "sk-demo") (.notOk 429 "rate limited")).1 =
      { status := 502, body := .error ("OpenAI error (" ++ toString 429 ++ "): rate limited") } :=
  ⟨(askura_failure_recovery.1 apiDemoBody "sk-demo" "boom").1,
   askura_failure_recovery.2.2.2.2.1 "Total?" apiDemoRows apiDemoCtx (.ok none) (by decide),
   askura_failure_recovery.2.2.2.2.2.2.1 "Total?" apiDemoRows apiDemoCtx "sk-demo" 429
     "rate limited" (by decide)⟩

/- ### C8 — at most one outbound chat-completion call -/

/-- C8: per processed question, every handler makes at most one outbound call
to the chat-completion API, and the client helper makes exactly one fetch; no
path retries after a failure. -/
theorem at_most_one_upstream_call :
    (∀ (method : String) (body : Option PagesApi.Body) (apiKey : Option String)
        (fetch : PagesApi.FetchOutcome), (PagesApi.handler method body apiKey fetch).2 ≤ 1) ∧
    (∀ (method : String) (body : Option ApiAskura.Payload) (apiKey : Option String)
        (chat : ApiAskura.ChatOutcome), (ApiAskura.handler method body apiKey chat).2 ≤ 1) ∧
    (∀ (method : String) (body : Option Api5.Payload) (apiKey : Option String)
        (fetch : PagesApi.FetchOutcome), (Api5.handler method body apiKey fetch).2 ≤ 1) ∧
    (∀ (apiKey prompt : String) (rows : List Home.Row) (ctx : Home.Ctx)
        (fetch : PagesApi.FetchOutcome), (Home.askOpenAI apiKey prompt rows ctx fetch).2 = 1) := by
  refine ⟨?_, ?_, ?_, ?_⟩
  · intro method body apiKey fetch
    unfold PagesApi.handler
    repeat' split
    all_goals simp
  · intro method body apiKey chat
    simp only [ApiAskura.handler]
    repeat' split
    all_goals simp
  · intro method body apiKey fetch
    unfold Api5.handler
    repeat' split
    all_goals simp
  · intro apiKey prompt rows ctx fetch
    rcases fetch with msg | ⟨st, txt⟩ | msg | content <;> rfl

/- ### JS string and regex helpers (over `List Char`) -/

/-- JS word character: the regex class `\w` is `[A-Za-z0-9_]`. -/
def jsIsWordChar (c : Char) : Bool := c.isAlpha || c.isDigit || c = '_'

/-- JS line terminators; the regex `.` matches any character except these. -/
def jsIsLineTerm (c : Char) : Bool := c = '\n' || c = '\r' || c = ' ' || c = ' '

/-- JS `s.toLowerCase()`, restricted to ASCII case folding (the only case the
questions and suppliers here exercise). -/
def jsToLower (s : String) : String := String.mk (s.data.map Char.toLower)

/-- JS `s.includes(pat)`: `pat` occurs as a contiguous substring (the empty
pattern always matches). -/
def listContains (pat : List Char) : List Char → Bool
  | [] => pat.isEmpty
  | s@(_ :: t) => pat.isPrefixOf s || listContains pat t

/-- Matches the regex fragment `\s+` followed by a continuation: consume one
or more whitespace characters, with full backtracking over the gap length,
then hand over to `next`. -/
def gapThen (next : List Char → Bool) : List Char → Bool
  | [] => false
  | c :: t => jsIsWS c && (next t || gapThen next t)

/-- Matches the regex fragment `w₁\s+w₂\s+…\s+wₙ` at the start of the
string. -/
def seqAt : List (List Char) → List Char → Bool
  | [] => fun _ => true
  | [w] => fun s => w.isPrefixOf s
  | w :: ws => fun s => w.isPrefixOf s && gapThen (seqAt ws) (s.drop w.length)

/-- Tests the word-gap sequence anywhere in the string (regex `test`
semantics). -/
def seqSearch (ws : List (List Char)) : List Char → Bool
  | [] => seqAt ws []
  | s@(_ :: t) => seqAt ws s || seqSearch ws t

/-- After the head of a `(head).*(tail)` pattern: matches `.*` followed by one
of the patterns in `ps`; `.` does not cross line terminators, and under `test`
semantics only existence matters, so greediness is irrelevant here. -/
def dotStarThen (ps : List (List Char)) : List Char → Bool
  | [] => ps.any (·.isPrefixOf ([] : List Char))
  | s@(c :: t) => ps.any (·.isPrefixOf s) || (!jsIsLineTerm c && dotStarThen ps t)

/-- Tests the regex `(a₁|…).*(b₁|…)` anywhere in the string (all the
alternatives used here are non-empty words, so nothing matches in the empty
string). -/
def headDotStar (heads tails : List (List Char)) : List Char → Bool
  | [] => false
  | s@(_ :: t) =>
    (heads.any fun a => a.isPrefixOf s && dotStarThen tails (s.drop a.length)) ||
      headDotStar heads tails t

/-- Matches `cost\s*price` at the start, returning the remainder.  Since `p`
is not whitespace, the backtracking `\s*` can only succeed at the end of the
whitespace run, so the run is consumed greedily. -/
def costPriceAt (s : List Char) : Option (List Char) :=
  if ("cost".data).isPrefixOf s then
    let rest := (s.drop 4).dropWhile jsIsWS
    if ("price".data).isPrefixOf rest then some (rest.drop 5) else none
  else none

/-- Tests the regex `cost\s*price.*(b₁|…)` anywhere in the string. -/
def costPriceDotStar (tails : List (List Char)) : List Char → Bool
  | [] => false
  | s@(_ :: t) =>
    (match costPriceAt s with
     | some rest => dotStarThen tails rest
     | none => false) || costPriceDotStar tails t

/-- Matches `20\d\d` at the start of the string (no boundary conditions). -/
def year4At (s : List Char) : Option (List Char) :=
  match s with
  | '2' :: '0' :: c3 :: c4 :: _ =>
    if c3.isDigit && c4.isDigit then some ['2', '0', c3, c4] else none
  | _ => none

/-- Regex `/\b20\d{2}\b/g`: all year tokens with word boundaries on both
sides, scanned left to right; `prev` holds the character before the scan
position.  The boundaries make matches non-overlapping, and `/g` resumes after
each match. -/
def yearScan (prev : Option Char) : List Char → List (List Char)
  | c1 :: c2 :: c3 :: c4 :: rest =>
    if (match prev with | none => true | some p => !jsIsWordChar p) &&
        c1 = '2' && c2 = '0' && c3.isDigit && c4.isDigit &&
        (match rest with | [] => true | c5 :: _ => !jsIsWordChar c5) then
      [c1, c2, c3, c4] :: yearScan (some c4) rest
    else yearScan (some c1) (c2 :: c3 :: c4 :: rest)
  | c1 :: t1 => yearScan (some c1) t1
  | [] => []

/-- `Array.from(new Set(xs))`: first occurrences, in insertion order. -/
def dedupFirst (xs : List String) : List String :=
  xs.foldl (fun acc a => if a ∈ acc then acc else acc ++ [a]) []

/-- The backtracking target of the greedy `.*` in `(20\d{2}).*(20\d{2})`: the
last occurrence of `20\d\d` reachable without the gap crossing a line
terminator.  A year cannot start with a terminator, so the scan stops there. -/
def lastYearFrom : List Char → Option (List Char)
  | [] => none
  | s@(c :: t) =>
    if jsIsLineTerm c then none
    else
      match lastYearFrom t with
      | some y => some y
      | none => year4At s

/-- Regex `text.match(/(20\d{2}).*(20\d{2})/)`: the leftmost position where a
year token is followed, on the same line, by a later year token; the greedy
`.*` makes the second capture the last such token.  Returns the two captured
groups. -/
def growthYears : List Char → Option (List Char × List Char)
  | [] => none
  | s@(_ :: t) =>
    match year4At s with
    | some y1 =>
      (match lastYearFrom (s.drop 4) with
       | some y2 => some (y1, y2)
       | none => growthYears t)
    | none => growthYears t

/-- Regex `/^(thanks|thank you|cheers|ok|okay|cool|great|nice|awesome|got it|good)\b/`:
an alternative at the start followed by a word boundary (every alternative
ends in a word character). -/
def smallTalkTest (s : List Char) : Bool :=
  ["thanks", "thank you", "cheers", "ok", "okay", "cool", "great", "nice",
   "awesome", "got it", "good"].any fun w =>
    (w.data).isPrefixOf s &&
      (match s.drop w.length with
       | [] => true
       | c :: _ => !jsIsWordChar c)

/-- Regex `/^(when\??|when was this\??|which year\??|what year\??)$/`. -/
def whenTest (s : List Char) : Bool :=
  ["when", "when?", "when was this", "when was this?", "which year", "which year?",
   "what year", "what year?"].any fun w => s == w.data

/-- Regex `/what\s+am\s+i\s+looking|what\s+does\s+this\s+chart|which\s+metrics\s+are\s+shown/`. -/
def chartCtxTest (s : List Char) : Bool :=
  seqSearch ["what".data, "am".data, "i".data, "looking".data] s ||
  seqSearch ["what".data, "does".data, "this".data, "chart".data] s ||
  seqSearch ["which".data, "metrics".data, "are".data, "shown".data] s

/-- Regex `/which\s+supplier|top\s+supplier|most\s+(units|revenue)/`. -/
def topSupplierTest (s : List Char) : Bool :=
  seqSearch ["which".data, "supplier".data] s ||
  seqSearch ["top".data, "supplier".data] s ||
  seqSearch ["most".data, "units".data] s ||
  seqSearch ["most".data, "revenue".data] s

/-- Regex `/biggest\s+margin|highest\s+margin/`. -/
def marginBigTest (s : List Char) : Bool :=
  seqSearch ["biggest".data, "margin".data] s ||
  seqSearch ["highest".data, "margin".data] s

/-- Regex `/(lowest|min).*cost|cost\s*price.*(lowest|min)/`. -/
def lowCostTest (s : List Char) : Bool :=
  headDotStar ["lowest".data, "min".data] ["cost".data] s ||
    costPriceDotStar ["lowest".data, "min".data] s

/-- Regex `/(highest|max).*cost|cost\s*price.*(highest|max)/`. -/
def highCostTest (s : List Char) : Bool :=
  headDotStar ["highest".data, "max".data] ["cost".data] s ||
    costPriceDotStar ["highest".data, "max".data] s

/-- Regex `/growth|change|delta|increase|decrease/`. -/
def growthWordTest (s : List Char) : Bool :=
  listContains "growth".data s || listContains "change".data s ||
  listContains "delta".data s || listContains "increase".data s ||
  listContains "decrease".data s

/-- The negative lookahead `sales(?!\s*units)` at one position: after `sales`,
the lookahead `\s*units` can only match with the whitespace run fully
consumed, because `units` starts with a non-whitespace character. -/
def salesNotUnitsAt (s : List Char) : Bool :=
  ("sales".data).isPrefixOf s &&
    !(("units".data).isPrefixOf ((s.drop 5).dropWhile jsIsWS))

/-- Tests a positional predicate at every suffix. -/
def anyPos (p : List Char → Bool) : List Char → Bool
  | [] => p []
  | s@(_ :: t) => p s || anyPos p t

/-- Regex `/revenue|sales(?!\s*units)/`. -/
def revenueTest (s : List Char) : Bool :=
  anyPos (fun u => ("revenue".data).isPrefixOf u || salesNotUnitsAt u) s

/-- Regex `/unit|quantity|qty/`. -/
def unitTest (s : List Char) : Bool :=
  listContains "unit".data s || listContains "quantity".data s || listContains "qty".data s

/-- Regex `/average|avg/`. -/
def avgTest (s : List Char) : Bool :=
  listContains "average".data s || listContains "avg".data s

/-- Regex `/margin|profit/`. -/
def marginProfitTest (s : List Char) : Bool :=
  listContains "margin".data s || listContains "profit".data s

/- ### JS Map and sort helpers -/

/-- JS `Map.get`: the binding for the key, if any. -/
def mapGet {β : Type} (m : List (String × β)) (k : String) : Option β :=
  match m with
  | [] => none
  | (j, v) :: t => if j == k then some v else mapGet t k

/-- JS `Map.set`: update in place (the insertion position of an existing key
is kept) or append a new binding. -/
def mapSet {β : Type} (m : List (String × β)) (k : String) (v : β) : List (String × β) :=
  match m with
  | [] => [(k, v)]
  | (j, w) :: t => if j == k then (j, v) :: t else (j, w) :: mapSet t k v

/-- Stable insertion for a descending sort by a rational key. -/
def insertDescBy {α : Type} (key : α → ℚ) (a : α) : List α → List α
  | [] => [a]
  | b :: t => if key a < key b then b :: insertDescBy key a t else a :: b :: t

/-- Stable descending sort by a rational key.  The source sorts with the
consistent comparator `(a, b) => b[k] - a[k]`; JS `Array.prototype.sort` is
stable, and every stable sort under a consistent comparator yields this
order. -/
def sortDescBy {α : Type} (key : α → ℚ) : List α → List α
  | [] => []
  | a :: t => insertDescBy key a (sortDescBy key t)

/-- Builds an interpolated template string (right-nested concatenation of its
fragments). -/
def strJoin (ps : List String) : String := ps.foldr (fun a b => a ++ b) ""

/- ### `Home` — the local Askura answerer (HomePage.tsx lines 344-467) -/

namespace Home

/-- HomePage.tsx line 53: `function pct(a,b){ if(!b) return 0; return (a-b)/b*100; }`
(over the rationals `!b` holds only for `b = 0`). -/
def pct (a b : ℚ) : ℚ := if b = 0 then 0 else (a - b) / b * 100

/-- The `metric` union `MetricKey | 'margin'` used by the memory struct and the
growth/average branches. -/
inductive MMetric
  | metric (m : MetricKey)
  | margin
deriving DecidableEq

/-- The `kind` union of `AskuraMemory`. -/
inductive MemKind
  | topSupplier | marginMax | growth | total | min | max
deriving DecidableEq

/-- `interface AskuraMemory` (line 344): every field is optional. -/
structure AskuraMemory where
  kind : Option MemKind
  metric : Option MMetric
  year : Option String
  years : Option (List String)
  supplier : Option String
  value : Option ℚ
deriving DecidableEq

/-- The empty memory object `{}`. -/
def AskuraMemory.empty : AskuraMemory := ⟨none, none, none, none, none, none⟩

/-- The `{ text, mem }` result of `answerLocal`. -/
structure AskResult where
  text : String
  mem : AskuraMemory
deriving DecidableEq

/-- JS truthiness of an optional string: present and non-empty. -/
def truthyS : Option String → Bool
  | some s => s != ""
  | none => false

/-- The `sum` helper of line 377: `(rs, f) => rs.reduce((s, r) => s + f(r), 0)`. -/
def sumBy (f : Row → ℚ) (rs : List Row) : ℚ := rs.foldl (fun s r => s + f r) 0

/-- Field selection `r[metric]`. -/
def metricVal : MetricKey → Row → ℚ
  | .revenue, r => r.revenue
  | .units, r => r.units
  | .costPrice, r => r.costPrice
  | .staffExp, r => r.staffExp

/-- The metric chosen by the growth and average branches (lines 443 and 452):
margin, units, revenue/sales, staff, cost — first match wins, default
revenue. -/
def metricFromText (t : List Char) : MMetric :=
  if listContains "margin".data t then .margin
  else if listContains "unit".data t then .metric .units
  else if revenueTest t then .metric .revenue
  else if listContains "staff".data t then .metric .staffExp
  else if listContains "cost".data t then .metric .costPrice
  else .metric .revenue

/-- The per-supplier aggregate of the top-supplier branch. -/
structure SupAgg where
  rev : ℚ
  units : ℚ
  margin : ℚ
deriving DecidableEq

/-- The `metric` selector of the top-supplier branch:
`/margin/.test ? 'margin' : /unit/.test ? 'units' : 'rev'`. -/
inductive SupMetric
  | rev | units | margin
deriving DecidableEq

/-- `JS byFilter.length || 1` as a rational divisor. -/
def lenOr1 (n : Nat) : ℚ := if n = 0 then 1 else (n : ℚ)

/-- The interpolation fragment `mentionedSupplier ? \x7bfor …\x7d : ''`. -/
def forSup (m : Option String) : String :=
  if truthyS m then " for " ++ m.getD "" else ""

/-- The interpolation fragment `yearsInQ.length ? \x7bin …\x7d : ''`. -/
def inYears (ys : List String) : String :=
  if ys.isEmpty then "" else " in " ++ String.intercalate ", " ys

/-- One Bool per branch guard of `answerLocal`, in source order; the fallback
sentence is returned exactly when none of these fires. -/
def branchMatched (t : List Char) : Bool :=
  t.isEmpty || smallTalkTest t || whenTest t || chartCtxTest t || topSupplierTest t ||
  marginBigTest t || lowCostTest t || highCostTest t ||
  (growthWordTest t && (growthYears t).isSome) || avgTest t || revenueTest t || unitTest t ||
  listContains "staff".data t || marginProfitTest t || listContains "cost".data t

/-- The chart-context branch (lines 391-395). -/
def chartBranch (context : Ctx) (mem : AskuraMemory) : Option AskResult :=
  let primary := METRIC_LABEL context.yA
  let secondary :=
    if context.secondaryOn then
      match context.yB with
      | some b => " and " ++ METRIC_LABEL b
      | none => ""
    else ""
  some ⟨strJoin ["The chart is a ", context.mode.toStr, " showing ", primary, secondary,
    " by Year."], mem⟩

/-- The top-supplier branch (lines 398-412).  Groups the filtered rows by
supplier, accumulating revenue, units and margin, sorts descending by the
requested metric, and reports the first entry.  The `sorted[0]` destructuring
is dominated by the `bySup.size` guard, so the `none` arm is unreachable. -/
def topSupplierBranch (t : List Char) (yearsInQ : List String) (byFilter : List Row)
    (mem : AskuraMemory) : Option AskResult :=
  let bySup := byFilter.foldl (fun m r =>
    let mv := r.revenue - r.costPrice * r.units - r.staffExp
    let s := (mapGet m r.supplier).getD { rev := 0, units := 0, margin := 0 }
    mapSet m r.supplier
      { rev := s.rev + r.revenue, units := s.units + r.units, margin := s.margin + mv }) []
  if bySup.isEmpty then some ⟨"No rows match that filter.", mem⟩
  else
    let metric : SupMetric :=
      if listContains "margin".data t then .margin
      else if listContains "unit".data t then .units
      else .rev
    let proj : SupAgg → ℚ := fun v =>
      match metric with
      | .rev => v.rev
      | .units => v.units
      | .margin => v.margin
    match sortDescBy (fun e => proj e.2) bySup with
    | [] => none
    | (name, vals) :: _ =>
      let label := match metric with
        | .rev => "revenue"
        | .units => "units"
        | .margin => "margin"
      some ⟨strJoin ["Top supplier by ", label, inYears yearsInQ, ": ", name, " (",
          toString (jsRound (proj vals)), ")."],
        { kind := some .topSupplier, supplier := some name,
          metric := some (match metric with
            | .rev => .metric .revenue
            | .units => .metric .units
            | .margin => .margin),
          year := yearsInQ.head?, years := some yearsInQ, value := none }⟩

/-- The highest-margin branch (lines 415-421).  Note the missing emptiness
guard: on an empty table `sorted` is empty and the `sorted[0]` destructuring
throws (`none`). -/
def marginBigBranch (rows : List Row) : Option AskResult :=
  let byYear := rows.foldl (fun m r =>
    let mv := r.revenue - r.costPrice * r.units - r.staffExp
    mapSet m r.period ((mapGet m r.period).getD 0 + mv)) []
  match sortDescBy (fun e => e.2) byYear with
  | [] => none
  | (year, val) :: _ =>
    some ⟨strJoin ["Highest margin year: ", year, " (~", toString (jsRound val), ")."],
      { kind := some .marginMax, year := some year, metric := some .margin,
        value := some val, years := none, supplier := none }⟩

/-- The lowest-cost-price branch (lines 425-430). -/
def lowCostBranch (rows : List Row) (mem : AskuraMemory) : Option AskResult :=
  let best := rows.foldl (fun b r =>
    match b with
    | none => some (r.period, r.costPrice)
    | some p => if r.costPrice < p.2 then some (r.period, r.costPrice) else some p) none
  match best with
  | none => some ⟨"No data.", mem⟩
  | some (year, val) =>
    some ⟨strJoin ["Lowest cost price: ", jsToFixed2 val, " in ", year, "."],
      { kind := some .min, metric := some (.metric .costPrice), year := some year,
        value := some val, years := none, supplier := none }⟩

/-- The highest-cost-price branch (lines 431-436). -/
def highCostBranch (rows : List Row) (mem : AskuraMemory) : Option AskResult :=
  let best := rows.foldl (fun b r =>
    match b with
    | none => some (r.period, r.costPrice)
    | some p => if p.2 < r.costPrice then some (r.period, r.costPrice) else some p) none
  match best with
  | none => some ⟨"No data.", mem⟩
  | some (year, val) =>
    some ⟨strJoin ["Highest cost price: ", jsToFixed2 val, " in ", year, "."],
      { kind := some .max, metric := some (.metric .costPrice), year := some year,
        value := some val, years := none, supplier := none }⟩

/-- The growth/difference branch (lines 439-448); entered only when the year
pair regex matched, so the `none` arm is unreachable under the guard. -/
def growthBranch (t : List Char) (rows : List Row) : Option AskResult :=
  match growthYears t with
  | none => none
  | some (y1c, y2c) =>
    let y1 := String.mk y1c
    let y2 := String.mk y2c
    let r1 := rows.filter (fun r => r.period == y1)
    let r2 := rows.filter (fun r => r.period == y2)
    let metric := metricFromText t
    let val : List Row → ℚ := fun rs =>
      match metric with
      | .margin => rs.foldl (fun s r => s + (r.revenue - r.costPrice * r.units - r.staffExp)) 0
      | .metric k => rs.foldl (fun s r => s + metricVal k r) 0
    let v1 := val r1
    let v2 := val r2
    some ⟨strJoin [(match metric with | .margin => "Margin" | .metric k => METRIC_LABEL k),
        " changed ", toString (jsRound (pct v2 v1)), "% from ", y1, " (",
        toString (jsRound v1), ") to ", y2, " (", toString (jsRound v2), ")."],
      { kind := some .growth, metric := some metric, years := some [y1, y2],
        year := some y2, value := some v2, supplier := none }⟩

/-- The average branch (lines 451-456). -/
def avgBranch (t : List Char) (yearsInQ : List String) (mentionedSupplier : Option String)
    (byFilter : List Row) (margin : ℚ) : Option AskResult :=
  let metric := metricFromText t
  let val : ℚ :=
    match metric with
    | .margin => margin / lenOr1 byFilter.length
    | .metric k =>
      sumBy (metricVal k) byFilter /
        (match k with | .costPrice => lenOr1 byFilter.length | _ => 1)
  some ⟨strJoin ["Average ",
      (match metric with | .margin => "margin" | .metric k => METRIC_LABEL k),
      forSup mentionedSupplier, inYears yearsInQ, ": ",
      (match metric with
       | .metric .costPrice => jsToFixed2 val
       | _ => toString (jsRound val)), "."],
    { kind := some .total, metric := some metric, value := some val,
      year := none, years := none, supplier := none }⟩

/-- The branch dispatch of `answerLocal` (lines 385-466), abstracted over the
values of the local bindings computed on lines 372-382 (`yearsInQ`,
`mentionedSupplier`, `byFilter` and the filtered sums). -/
def answerChain (t : List Char) (rows : List Row) (context : Ctx) (mem : AskuraMemory)
    (yearsInQ : List String) (mentionedSupplier : Option String) (byFilter : List Row)
    (rev units staff margin : ℚ) : Option AskResult :=
  if whenTest t then
    (if truthyS mem.year then some ⟨strJoin ["It was in ", mem.year.getD "", "."], mem⟩
     else some ⟨"I need a reference. Ask a specific question first (e.g., lowest cost price).", mem⟩)
  else if chartCtxTest t then chartBranch context mem
  else if topSupplierTest t then topSupplierBranch t yearsInQ byFilter mem
  else if marginBigTest t then marginBigBranch rows
  else if lowCostTest t then lowCostBranch rows mem
  else if highCostTest t then highCostBranch rows mem
  else if growthWordTest t && (growthYears t).isSome then growthBranch t rows
  else if avgTest t then avgBranch t yearsInQ mentionedSupplier byFilter margin
  else if revenueTest t then
    some ⟨strJoin ["Revenue", forSup mentionedSupplier, inYears yearsInQ, ": ",
        toString (jsRound rev), "."],
      { mem with kind := some .total, metric := some (.metric .revenue), value := some rev }⟩
  else if unitTest t then
    some ⟨strJoin ["Units", forSup mentionedSupplier, inYears yearsInQ, ": ",
        toString (jsRound units), "."],
      { mem with kind := some .total, metric := some (.metric .units), value := some units }⟩
  else if listContains "staff".data t then
    some ⟨strJoin ["Staff expenses", forSup mentionedSupplier, inYears yearsInQ, ": ",
        toString (jsRound staff), "."],
      { mem with kind := some .total, metric := some (.metric .staffExp), value := some staff }⟩
  else if marginProfitTest t then
    some ⟨strJoin ["Margin", forSup mentionedSupplier, inYears yearsInQ, ": ",
        toString (jsRound margin), " (approx)."],
      { mem with kind := some .marginMax, metric := some .margin, value := some margin }⟩
  else if listContains "cost".data t then
    some ⟨strJoin ["Average cost price", forSup mentionedSupplier, inYears yearsInQ, ": ",
        jsToFixed2 (sumBy (fun r => r.costPrice) byFilter / lenOr1 byFilter.length), "."],
      { mem with kind := some .total, metric := some (.metric .costPrice) }⟩
  else
    some ⟨"Try: \"Top supplier by revenue\", \"Revenue growth 2024 to 2025\", or \"What does this chart show?\"", mem⟩

/-- The body of `answerLocal` (HomePage.tsx lines 363-467), abstracted over
`text = q.trim().toLowerCase()`: the empty and small-talk early returns, then
the local bindings of lines 372-382, then the branch dispatch `answerChain`.
A `none` result models a thrown exception. -/
def answerLocalCore (t : List Char) (rows : List Row) (context : Ctx) (mem : AskuraMemory) :
    Option AskResult :=
  if t.isEmpty then
    some ⟨"Ask about revenue, units, suppliers, costs, margin, growth, or years (e.g., \"revenue growth 2024 to 2025\").", mem⟩
  else if smallTalkTest t then
    some ⟨if mem.kind.isSome then "Anytime — want me to break that down further or compare years?"
          else "Anytime — ask me anything about the table.", mem⟩
  else
    let yearsInQ := dedupFirst ((yearScan none t).map String.mk)
    let suppliers := dedupFirst (rows.map (fun r => jsToLower r.supplier))
    let mentionedSupplier := suppliers.find? (fun s => listContains s.data t)
    let byFilter := rows.filter (fun r =>
      (if yearsInQ.isEmpty then true else yearsInQ.contains r.period) &&
      (if truthyS mentionedSupplier then jsToLower r.supplier == mentionedSupplier.getD ""
       else true))
    let rev := sumBy (fun r => r.revenue) byFilter
    let units := sumBy (fun r => r.units) byFilter
    let cost := sumBy (fun r => r.costPrice * r.units) byFilter
    let staff := sumBy (fun r => r.staffExp) byFilter
    let margin := rev - cost - staff
    answerChain t rows context mem yearsInQ mentionedSupplier byFilter rev units staff margin

/-- `answerLocal` (lines 363-467): lowercases and trims the question, then
dispatches through the branch chain. -/
def answerLocal (q : String) (rows : List Row) (context : Ctx) (mem : AskuraMemory) :
    Option AskResult :=
  answerLocalCore (jsToLower (jsTrim q)).data rows context mem

end Home

/- ### `Home` — CSV import (HomePage.tsx lines 35-52 and 745-764) -/

namespace Home

/-- `defaultRows()` (lines 35-44); the decimal literals are taken exactly. -/
def defaultRows : List Row :=
  [{ period := "2020", revenue := 300, units := 240, supplier := "Northstar",
     costPrice := 88/100, staffExp := 40 },
   { period := "2021", revenue := 350, units := 260, supplier := "Northstar",
     costPrice := 90/100, staffExp := 44 },
   { period := "2022", revenue := 400, units := 290, supplier := "BluePeak",
     costPrice := 91/100, staffExp := 48 },
   { period := "2023", revenue := 460, units := 310, supplier := "BluePeak",
     costPrice := 93/100, staffExp := 50 },
   { period := "2024", revenue := 520, units := 350, supplier := "Skyline",
     costPrice := 94/100, staffExp := 54 },
   { period := "2025", revenue := 590, units := 380, supplier := "Skyline",
     costPrice := 96/100, staffExp := 58 }]

end Home

/-- Splits a digit run off the front of the string. -/
def takeDigits : List Char → List Char × List Char
  | [] => ([], [])
  | s@(c :: t) =>
    if c.isDigit then
      let (d, r) := takeDigits t
      (c :: d, r)
    else ([], s)

/-- Numeric value of a digit run. -/
def digitsVal (ds : List Char) : Nat :=
  ds.foldl (fun n c => 10 * n + (c.toNat - '0'.toNat)) 0

/-- JS `parseFloat` restricted to strings over the alphabet `0-9.\-` (all that
`num` can produce after its `replace`; in particular no exponents survive):
an optional leading sign, then the longest `digits[.digits]` prefix; `none`
models `NaN` (no digit consumed). -/
def jsParseFloat (s : List Char) : Option ℚ :=
  let signAndRest : ℚ × List Char :=
    match s with
    | '-' :: t => (-1, t)
    | '+' :: t => (1, t)
    | _ => (1, s)
  let (ip, s2) := takeDigits signAndRest.2
  let fp : List Char :=
    match s2 with
    | '.' :: t => (takeDigits t).1
    | _ => []
  if ip.isEmpty && fp.isEmpty then none
  else some (signAndRest.1 * ((digitsVal ip : ℚ) + (digitsVal fp : ℚ) / 10 ^ fp.length))

namespace Home

/-- `num` (lines 49-52) on string input:
`parseFloat(String(v).replace(/[^0-9.\-]/g, ''))`, then `0` unless finite.
(A `number` input passes through the same `isFinite` gate unchanged; only the
string path is exercised by `parseCSV`.) -/
def num (v : String) : ℚ :=
  match jsParseFloat (v.data.filter (fun c => c.isDigit || c = '.' || c = '-')) with
  | some q => q
  | none => 0

end Home

/-- Splits on the regex `\r?\n` (line 747). -/
def splitLinesGo (acc : List Char) : List Char → List String
  | [] => [String.mk acc.reverse]
  | '\r' :: '\n' :: t => String.mk acc.reverse :: splitLinesGo [] t
  | '\n' :: t => String.mk acc.reverse :: splitLinesGo [] t
  | c :: t => splitLinesGo (c :: acc) t

/-- JS `s.split(/\r?\n/)`. -/
def splitLinesJS (s : String) : List String := splitLinesGo [] s.data

/-- JS `x || y` where `x` is a possibly-undefined string: `undefined` and the
empty string are falsy. -/
def jsOrS (x : Option String) (y : String) : String :=
  match x with
  | some s => if s = "" then y else s
  | none => y

namespace Home

/-- One data line of `parseCSV` (lines 752-760).  `headers.indexOf(h)` is an
optional index: JS returns `-1`, on which the later `cols[idx]` access yields
`undefined`. -/
def parseLine (headers : List String) (line : String) : Row :=
  let cols := line.splitOn ","
  let idx := fun (h : String) => headers.findIdx? (fun s => s == h)
  let get := fun (i : Option Nat) => i.bind (fun n => cols.get? n)
  let supplier0 := jsTrim (jsOrS (get (idx "supplier")) "")
  { period := jsOrS ((get (idx "period")).map jsTrim) (jsOrS ((cols.get? 0).map jsTrim) ""),
    revenue := num (jsOrS (get (idx "revenue")) "0"),
    units := num (jsOrS (get (idx "units")) "0"),
    supplier := if supplier0 = "" then "Unknown" else supplier0,
    costPrice := num (jsOrS (get (idx "costprice")) (jsOrS (get (idx "cost_price")) "0")),
    staffExp := num (jsOrS (get (idx "staffexp")) (jsOrS (get (idx "staff_exp")) "0")) }

/-- The header/line loop of `parseCSV` (lines 746-762): the first line becomes
the lowercased headers (the splitter always yields at least one piece, so the
`|| []` arm of `lines.shift()` is dead), and each later line is parsed, rows
with a non-empty resolved period being pushed. -/
def parseCSVrows (text : String) : List Row :=
  match splitLinesJS (jsTrim text) with
  | [] => []
  | h :: rest =>
    let headers := (h.splitOn ",").map (fun s => jsToLower (jsTrim s))
    rest.foldl (fun out line =>
      let row := parseLine headers line
      if row.period ≠ "" then out ++ [row] else out) []

/-- `parseCSV` (lines 746-763): `return out.length ? out : defaultRows()`. -/
def parseCSV (text : String) : List Row :=
  let out := parseCSVrows text
  if out.isEmpty then defaultRows else out

end Home

/- ### Helper lemmas for the answerer and the CSV parser -/

/-- A template string with a non-empty first fragment is non-empty. -/
theorem strJoin_ne_empty (p : String) (ps : List String) (h : p ≠ "") :
    strJoin (p :: ps) ≠ "" := append_ne_empty p _ h

/-- `mapSet` never returns the empty map. -/
theorem mapSet_ne_nil {β : Type} (m : List (String × β)) (k : String) (v : β) :
    mapSet m k v ≠ [] := by
  cases m with
  | nil => simp [mapSet]
  | cons p t =>
    simp only [mapSet]
    split <;> simp

/-- Folding a step that never returns the empty list over a non-empty input
(or from a non-empty accumulator) gives a non-empty list. -/
theorem foldl_step_ne_nil {α β : Type} (step : List β → α → List β)
    (hstep : ∀ m a, step m a ≠ []) :
    ∀ (l : List α) (acc : List β), acc ≠ [] ∨ l ≠ [] → l.foldl step acc ≠ [] := by
  intro l
  induction l with
  | nil =>
    intro acc h
    rcases h with h | h
    · exact h
    · exact absurd rfl h
  | cons a t ih =>
    intro acc _
    simp only [List.foldl_cons]
    exact ih (step acc a) (Or.inl (hstep acc a))

theorem insertDescBy_length {α : Type} (key : α → ℚ) (a : α) (l : List α) :
    (insertDescBy key a l).length = l.length + 1 := by
  induction l with
  | nil => rfl
  | cons b t ih =>
    simp only [insertDescBy]
    split <;> simp [ih]

theorem sortDescBy_length {α : Type} (key : α → ℚ) (l : List α) :
    (sortDescBy key l).length = l.length := by
  induction l with
  | nil => rfl
  | cons a t ih => simp [sortDescBy, insertDescBy_length, ih]

/-- The stable sort of a non-empty list is non-empty. -/
theorem sortDescBy_eq_nil {α : Type} (key : α → ℚ) (l : List α)
    (h : sortDescBy key l = []) : l = [] := by
  have hl := sortDescBy_length key l
  rw [h] at hl
  exact List.length_eq_zero.mp hl.symm

/-- A first-some-then-keep fold over a non-empty list yields `some`. -/
theorem foldl_isSome {α β : Type} (step : Option β → α → Option β)
    (hkeep : ∀ (b : β) (a : α), (step (some b) a).isSome = true)
    (hinit : ∀ a : α, (step none a).isSome = true) :
    ∀ l : List α, l ≠ [] → (l.foldl step none).isSome = true := by
  have aux : ∀ (t : List α) (b : β), (t.foldl step (some b)).isSome = true := by
    intro t
    induction t with
    | nil => intro b; rfl
    | cons a t ih =>
      intro b
      simp only [List.foldl_cons]
      have hk := hkeep b a
      rcases ho : step (some b) a with _ | b2
      · rw [ho] at hk
        simp at hk
      · exact ih b2
  intro l hl
  rcases l with _ | ⟨a, t⟩
  · exact absurd rfl hl
  · simp only [List.foldl_cons]
    have h0 := hinit a
    rcases ho : step none a with _ | b
    · rw [ho] at h0
      simp at h0
    · exact aux t b

/- ### C7 — determinism of answerLocal -/

/-- C7: `answerLocal` is deterministic and stateless beyond its explicit
arguments: two invocations with equal question, rows, context and memory
return equal text and memory — the embedding reads no other state. -/
theorem answerLocal_deterministic (q₁ q₂ : String) (rows₁ rows₂ : List Home.Row)
    (c₁ c₂ : Home.Ctx) (m₁ m₂ : Home.AskuraMemory)
    (hq : q₁ = q₂) (hr : rows₁ = rows₂) (hc : c₁ = c₂) (hm : m₁ = m₂) :
    Home.answerLocal q₁ rows₁ c₁ m₁ = Home.answerLocal q₂ rows₂ c₂ m₂ := by
  subst hq
  subst hr
  subst hc
  subst hm
  rfl

/-- A concrete chart context. -/
def homeDemoCtx : Home.Ctx := { mode := .line, yA := .units, yB := none, secondaryOn := false }

/-- Witness for C7 at concrete arguments. -/
theorem answerLocal_deterministic_witness :
    Home.answerLocal "revenue" Home.defaultRows homeDemoCtx Home.AskuraMemory.empty =
      Home.answerLocal "revenue" Home.defaultRows homeDemoCtx Home.AskuraMemory.empty :=
  answerLocal_deterministic "revenue" "revenue" Home.defaultRows Home.defaultRows
    homeDemoCtx homeDemoCtx Home.AskuraMemory.empty Home.AskuraMemory.empty rfl rfl rfl rfl

/- ### C9 — parseCSV period guard and demo fallback -/

/-- Every row pushed by the parse loop has a non-empty period. -/
theorem parseFold_period_ne (headers : List String) (lines : List String) :
    ∀ (acc : List Home.Row), (∀ r ∈ acc, r.period ≠ "") →
      ∀ r ∈ lines.foldl (fun out line =>
          let row := Home.parseLine headers line
          if row.period ≠ "" then out ++ [row] else out) acc, r.period ≠ "" := by
  induction lines with
  | nil => intro acc hacc; exact hacc
  | cons l t ih =>
    intro acc hacc
    simp only [List.foldl_cons]
    refine ih _ ?_
    intro r' hr'
    by_cases hp : (Home.parseLine headers l).period ≠ ""
    · rw [if_pos hp] at hr'
      rcases List.mem_append.mp hr' with hmem | hmem
      · exact hacc r' hmem
      · rw [List.mem_singleton.mp hmem]
        exact hp
    · rw [if_neg hp] at hr'
      exact hacc r' hr'

/-- C9: `parseCSV` only keeps data lines whose resolved period is non-empty,
and when no data line survives — in particular for an empty or unparseable
file — it returns the built-in demo dataset `defaultRows` rather than an empty
list or an error, silently replacing the uploaded data. -/
theorem parseCSV_period_guard :
    (∀ text : String, ∀ r ∈ Home.parseCSV text, r.period ≠ "") ∧
    (∀ text : String, Home.parseCSVrows text = [] → Home.parseCSV text = Home.defaultRows) ∧
    Home.parseCSV "" = Home.defaultRows := by
  refine ⟨?_, ?_, ?_⟩
  · intro text r hr
    unfold Home.parseCSV at hr
    by_cases h : (Home.parseCSVrows text).isEmpty
    · rw [if_pos h] at hr
      simp only [Home.defaultRows, List.mem_cons, List.not_mem_nil, or_false] at hr
      rcases hr with rfl | rfl | rfl | rfl | rfl | rfl <;> decide
    · rw [if_neg h] at hr
      unfold Home.parseCSVrows at hr
      rcases hsplit : splitLinesJS (jsTrim text) with _ | ⟨hd, rest⟩
      · rw [hsplit] at hr
        simp at hr
      · rw [hsplit] at hr
        dsimp only at hr
        exact parseFold_period_ne _ rest [] (by simp) r hr
  · intro text h
    unfold Home.parseCSV
    rw [h]
    rfl
  · rfl

/-- Witness for C9: a one-line file with no data rows falls back to the demo
dataset. -/
theorem parseCSV_period_guard_witness :
    Home.parseCSV "period,revenue" = Home.defaultRows :=
  parseCSV_period_guard.2.1 "period,revenue" rfl

/- ### C4 — totality and fallback of answerLocal -/

/-- A first-some-then-keep fold over a non-empty list is not `none`. -/
theorem foldl_ne_none {α β : Type} (step : Option β → α → Option β)
    (hkeep : ∀ (b : β) (a : α), (step (some b) a).isSome = true)
    (hinit : ∀ a : α, (step none a).isSome = true)
    (l : List α) (hl : l ≠ []) : l.foldl step none ≠ none := by
  intro hn
  have hs := foldl_isSome step hkeep hinit l hl
  rw [hn] at hs
  simp at hs

/-- Counterexample to C4 as stated: on an empty row list, the highest-margin
branch of `answerLocal` sorts an empty per-year map and destructures its first
element, so the call throws instead of returning an answer string. -/
theorem answerLocal_empty_rows_counterexample :
    Home.answerLocal "highest margin" [] homeDemoCtx Home.AskuraMemory.empty = none := by
  rfl

/-- The chart-context branch always answers with non-empty text. -/
theorem chartBranch_spec (context : Home.Ctx) (mem : Home.AskuraMemory) :
    ∃ res : Home.AskResult, Home.chartBranch context mem = some res ∧ res.text ≠ "" := by
  unfold Home.chartBranch
  refine ⟨_, rfl, ?_⟩
  exact strJoin_ne_empty _ _ (by decide)

/-- The top-supplier branch always answers with non-empty text. -/
theorem topSupplierBranch_spec (t : List Char) (yearsInQ : List String)
    (byFilter : List Home.Row) (mem : Home.AskuraMemory) :
    ∃ res : Home.AskResult, Home.topSupplierBranch t yearsInQ byFilter mem = some res ∧
      res.text ≠ "" := by
  unfold Home.topSupplierBranch
  dsimp only
  split
  · refine ⟨_, rfl, ?_⟩
    exact (by decide : ("No rows match that filter." : String) ≠ "")
  · rename_i hne
    split
    · rename_i heq
      have hB := sortDescBy_eq_nil _ _ heq
      rw [hB] at hne
      exact absurd rfl hne
    · refine ⟨_, rfl, ?_⟩
      exact strJoin_ne_empty _ _ (by decide)

/-- On a non-empty table the highest-margin branch answers with non-empty
text (on an empty table it throws). -/
theorem marginBigBranch_spec (rows : List Home.Row) (h : rows ≠ []) :
    ∃ res : Home.AskResult, Home.marginBigBranch rows = some res ∧ res.text ≠ "" := by
  unfold Home.marginBigBranch
  dsimp only
  split
  · rename_i heq
    have hB := sortDescBy_eq_nil _ _ heq
    exact absurd hB (foldl_step_ne_nil _ (fun m a => mapSet_ne_nil _ _ _) rows [] (Or.inr h))
  · refine ⟨_, rfl, ?_⟩
    exact strJoin_ne_empty _ _ (by decide)

/-- The lowest-cost-price branch always answers with non-empty text. -/
theorem lowCostBranch_spec (rows : List Home.Row) (mem : Home.AskuraMemory) :
    ∃ res : Home.AskResult, Home.lowCostBranch rows mem = some res ∧ res.text ≠ "" := by
  unfold Home.lowCostBranch
  dsimp only
  split
  · refine ⟨_, rfl, ?_⟩
    exact (by decide : ("No data." : String) ≠ "")
  · refine ⟨_, rfl, ?_⟩
    exact strJoin_ne_empty _ _ (by decide)

/-- The highest-cost-price branch always answers with non-empty text. -/
theorem highCostBranch_spec (rows : List Home.Row) (mem : Home.AskuraMemory) :
    ∃ res : Home.AskResult, Home.highCostBranch rows mem = some res ∧ res.text ≠ "" := by
  unfold Home.highCostBranch
  dsimp only
  split
  · refine ⟨_, rfl, ?_⟩
    exact (by decide : ("No data." : String) ≠ "")
  · refine ⟨_, rfl, ?_⟩
    exact strJoin_ne_empty _ _ (by decide)

/-- When a year pair was matched, the growth branch answers with non-empty
text. -/
theorem growthBranch_spec (t : List Char) (rows : List Home.Row)
    (hg : (growthYears t).isSome = true) :
    ∃ res : Home.AskResult, Home.growthBranch t rows = some res ∧ res.text ≠ "" := by
  unfold Home.growthBranch
  split
  · rename_i heq
    rw [heq] at hg
    simp at hg
  · refine ⟨_, rfl, ?_⟩
    refine strJoin_ne_empty _ _ ?_
    cases Home.metricFromText t with
    | margin => decide
    | metric k => cases k <;> decide

/-- The average branch always answers with non-empty text. -/
theorem avgBranch_spec (t : List Char) (yearsInQ : List String)
    (mentionedSupplier : Option String) (byFilter : List Home.Row) (margin : ℚ) :
    ∃ res : Home.AskResult,
      Home.avgBranch t yearsInQ mentionedSupplier byFilter margin = some res ∧
      res.text ≠ "" := by
  unfold Home.avgBranch
  refine ⟨_, rfl, ?_⟩
  exact strJoin_ne_empty _ _ (by decide)

/-- Branch-by-branch totality of the answer dispatch on a non-empty table. -/
theorem answerChain_spec (t : List Char) (rows : List Home.Row) (context : Home.Ctx)
    (mem : Home.AskuraMemory) (yearsInQ : List String) (mentionedSupplier : Option String)
    (byFilter : List Home.Row) (rev units staff margin : ℚ) (h : rows ≠ []) :
    ∃ res : Home.AskResult,
      Home.answerChain t rows context mem yearsInQ mentionedSupplier byFilter
        rev units staff margin = some res ∧
      res.text ≠ "" ∧
      (Home.branchMatched t = false →
        res.text = "Try: \"Top supplier by revenue\", \"Revenue growth 2024 to 2025\", or \"What does this chart show?\"") := by
  delta Home.answerChain
  by_cases h3 : whenTest t = true
  · rw [if_pos h3]
    by_cases hy : Home.truthyS mem.year = true
    · rw [if_pos hy]
      refine ⟨_, rfl, ?_, fun hb => ?_⟩
      · exact strJoin_ne_empty _ _ (by decide)
      · simp [Home.branchMatched, h3] at hb
    · rw [if_neg hy]
      refine ⟨_, rfl, ?_, fun hb => ?_⟩
      · exact (by decide :
          ("I need a reference. Ask a specific question first (e.g., lowest cost price)." : String) ≠ "")
      · simp [Home.branchMatched, h3] at hb
  · rw [if_neg h3]
    by_cases h4 : chartCtxTest t = true
    · rw [if_pos h4]
      obtain ⟨res, hres, hne⟩ := chartBranch_spec context mem
      exact ⟨res, hres, hne, fun hb => by simp [Home.branchMatched, h4] at hb⟩
    · rw [if_neg h4]
      by_cases h5 : topSupplierTest t = true
      · rw [if_pos h5]
        obtain ⟨res, hres, hne⟩ := topSupplierBranch_spec t yearsInQ byFilter mem
        exact ⟨res, hres, hne, fun hb => by simp [Home.branchMatched, h5] at hb⟩
      · rw [if_neg h5]
        by_cases h6 : marginBigTest t = true
        · rw [if_pos h6]
          obtain ⟨res, hres, hne⟩ := marginBigBranch_spec rows h
          exact ⟨res, hres, hne, fun hb => by simp [Home.branchMatched, h6] at hb⟩
        · rw [if_neg h6]
          by_cases h7 : lowCostTest t = true
          · rw [if_pos h7]
            obtain ⟨res, hres, hne⟩ := lowCostBranch_spec rows mem
            exact ⟨res, hres, hne, fun hb => by simp [Home.branchMatched, h7] at hb⟩
          · rw [if_neg h7]
            by_cases h8 : highCostTest t = true
            · rw [if_pos h8]
              obtain ⟨res, hres, hne⟩ := highCostBranch_spec rows mem
              exact ⟨res, hres, hne, fun hb => by simp [Home.branchMatched, h8] at hb⟩
            · rw [if_neg h8]
              by_cases h9 : (growthWordTest t && (growthYears t).isSome) = true
              · rw [if_pos h9]
                obtain ⟨res, hres, hne⟩ :=
                  growthBranch_spec t rows (Bool.and_eq_true _ _ ▸ h9).2
                exact ⟨res, hres, hne, fun hb => by simp [Home.branchMatched, h9] at hb⟩
              · rw [if_neg h9]
                by_cases h10 : avgTest t = true
                · rw [if_pos h10]
                  obtain ⟨res, hres, hne⟩ :=
                    avgBranch_spec t yearsInQ mentionedSupplier byFilter margin
                  exact ⟨res, hres, hne, fun hb => by simp [Home.branchMatched, h10] at hb⟩
                · rw [if_neg h10]
                  by_cases h11 : revenueTest t = true
                  · rw [if_pos h11]
                    refine ⟨_, rfl, ?_, fun hb => ?_⟩
                    · exact strJoin_ne_empty _ _ (by decide)
                    · simp [Home.branchMatched, h11] at hb
                  · rw [if_neg h11]
                    by_cases h12 : unitTest t = true
                    · rw [if_pos h12]
                      refine ⟨_, rfl, ?_, fun hb => ?_⟩
                      · exact strJoin_ne_empty _ _ (by decide)
                      · simp [Home.branchMatched, h12] at hb
                    · rw [if_neg h12]
                      by_cases h13 : listContains "staff".data t = true
                      · rw [if_pos h13]
                        refine ⟨_, rfl, ?_, fun hb => ?_⟩
                        · exact strJoin_ne_empty _ _ (by decide)
                        · simp [Home.branchMatched, h13] at hb
                      · rw [if_neg h13]
                        by_cases h14 : marginProfitTest t = true
                        · rw [if_pos h14]
                          refine ⟨_, rfl, ?_, fun hb => ?_⟩
                          · exact strJoin_ne_empty _ _ (by decide)
                          · simp [Home.branchMatched, h14] at hb
                        · rw [if_neg h14]
                          by_cases h15 : listContains "cost".data t = true
                          · rw [if_pos h15]
                            refine ⟨_, rfl, ?_, fun hb => ?_⟩
                            · exact strJoin_ne_empty _ _ (by decide)
                            · simp [Home.branchMatched, h15] at hb
                          · rw [if_neg h15]
                            refine ⟨_, rfl, ?_, fun _ => rfl⟩
                            exact (by decide :
                              ("Try: \"Top supplier by revenue\", \"Revenue growth 2024 to 2025\", or \"What does this chart show?\"" : String) ≠ "")

/-- Totality of the answerer body on a non-empty table. -/
theorem answerLocalCore_spec (t : List Char) (rows : List Home.Row) (context : Home.Ctx)
    (mem : Home.AskuraMemory) (h : rows ≠ []) :
    ∃ res : Home.AskResult, Home.answerLocalCore t rows context mem = some res ∧
      res.text ≠ "" ∧
      (Home.branchMatched t = false →
        res.text = "Try: \"Top supplier by revenue\", \"Revenue growth 2024 to 2025\", or \"What does this chart show?\"") := by
  delta Home.answerLocalCore
  by_cases h1 : t.isEmpty = true
  · rw [if_pos h1]
    refine ⟨_, rfl, ?_, fun hb => ?_⟩
    · exact (by decide :
        ("Ask about revenue, units, suppliers, costs, margin, growth, or years (e.g., \"revenue growth 2024 to 2025\")." : String) ≠ "")
    · simp [Home.branchMatched, h1] at hb
  · rw [if_neg h1]
    by_cases h2 : smallTalkTest t = true
    · rw [if_pos h2]
      refine ⟨_, rfl, ?_, fun hb => ?_⟩
      · by_cases hk : mem.kind.isSome = true
        · rw [if_pos hk]
          exact (by decide :
            ("Anytime — want me to break that down further or compare years?" : String) ≠ "")
        · rw [if_neg hk]
          exact (by decide : ("Anytime — ask me anything about the table." : String) ≠ "")
      · simp [Home.branchMatched, h2] at hb
    · rw [if_neg h2]
      exact answerChain_spec t rows context mem _ _ _ _ _ _ _ h

/-- C4 (amended): for every question, chart context and memory value, and
every non-empty row list, `answerLocal` returns (rather than throwing) a
non-empty answer string, and when no keyword/regex branch matches the
question it returns the fixed fallback suggestion sentence.  (On an empty row
list the highest-margin branch throws; see the counterexample.) -/
theorem answerLocal_nonempty_fallback (q : String) (rows : List Home.Row)
    (context : Home.Ctx) (mem : Home.AskuraMemory) (h : rows ≠ []) :
    ∃ res : Home.AskResult, Home.answerLocal q rows context mem = some res ∧
      res.text ≠ "" ∧
      (Home.branchMatched (jsToLower (jsTrim q)).data = false →
        res.text = "Try: \"Top supplier by revenue\", \"Revenue growth 2024 to 2025\", or \"What does this chart show?\"") := by
  unfold Home.answerLocal
  exact answerLocalCore_spec ((jsToLower (jsTrim q)).data) rows context mem h

/-- Witness for the amended C4: a question matching no branch, on the demo
table. -/
theorem answerLocal_nonempty_fallback_witness :
    ∃ res : Home.AskResult,
      Home.answerLocal "zzz" Home.defaultRows homeDemoCtx Home.AskuraMemory.empty = some res ∧
      res.text ≠ "" ∧
      (Home.branchMatched (jsToLower (jsTrim "zzz")).data = false →
        res.text = "Try: \"Top supplier by revenue\", \"Revenue growth 2024 to 2025\", or \"What does this chart show?\"") :=
  answerLocal_nonempty_fallback "zzz" Home.defaultRows homeDemoCtx Home.AskuraMemory.empty
    (by decide)
